import Mathlib

/-!
# bjoern, `wsgi.c`: the WSGI response path

A shallow embedding of `bjoern/wsgi.c`: the `start_response` callable, the
application call `wsgi_call_application`, the header serializer
`wsgi_sendheaders` and the body senders behind `wsgi_send_response`.

Conventions of the embedding.

* A Python 2 byte string is a `String`, one character for one byte, so that
  `String.length` is `PyString_GET_SIZE`.
* `PyObject*` is `Option PyObj`; `none` is the `NULL` pointer.
* The CPython error indicator is not a global: every function returns the
  error it raised (`none` when it raised nothing).
* Reference counts are not modelled.
* Reads through unchecked CPython accessors on an object of the wrong type,
  writes past the end of the header buffer and `assert(0)` have no defined
  result in C; the embedding reports them as a `Fault`.
-/

namespace Bjoern

/-! ## Python objects -/

mutual
/-- Python objects, as far as `wsgi.c` can tell them apart. -/
inductive PyObj : Type
  | none : PyObj
  | int (n : Int) : PyObj
  | str (s : String) : PyObj
  | tuple (items : List PyObj) : PyObj
  | list (items : List PyObj) : PyObj
  | file (lines : List String) : PyObj
  | iter (pending : List Pull) : PyObj
/-- One future `next()` of an iterator: the argument tuples of the
`start_response` calls its code makes, in order, and then either the item it
yields or the exception it raises. -/
inductive Pull : Type
  | yield (calls : List (List PyObj)) (item : PyObj) : Pull
  | raise (calls : List (List PyObj)) (exc : PyObj) : Pull
end

/-- Errors that can be left in the CPython error indicator. -/
inductive PyErr : Type
  /-- A `PyExc_TypeError` set by `PyErr_SetString` or `PyErr_Format`. -/
  | TypeError (msg : String) : PyErr
  /-- Modelled from the spec: the `PyExc_TypeError` set by a failed `TYPECHECK`
  or `TYPECHECK2`. The macros are defined in `common.h`, which is not part of
  the sources; the spec says that a value of the wrong type "fails with a type
  error", and a check fails for a `NULL` pointer and for an object of another
  type. `errmsg_name` is the name the macro is given for the checked value. -/
  | TypeCheck (errmsg_name : String) : PyErr
  /-- The indicator after `PyErr_Restore (type, value, traceback)`. -/
  | Restored (type value traceback : PyObj) : PyErr
  /-- An exception raised by application code. -/
  | Raised (exc : PyObj) : PyErr

/-- Whether the error is a `TypeError` raised by `wsgi.c` itself. -/
def PyErr.isTypeError : PyErr → Bool
  | .TypeError _ => true
  | .TypeCheck _ => true
  | _ => false

/-- `PyString_Check` on a possibly-`NULL` pointer. -/
def PyString_Check : Option PyObj → Bool
  | some (.str _) => true
  | _ => false

/-- `PyTuple_Check` on a possibly-`NULL` pointer. -/
def PyTuple_Check : Option PyObj → Bool
  | some (.tuple _) => true
  | _ => false

/-- `PyList_Check` on a possibly-`NULL` pointer. -/
def PyList_Check : Option PyObj → Bool
  | some (.list _) => true
  | _ => false

/-- `PyFile_Check`. -/
def PyFile_Check : PyObj → Bool
  | .file _ => true
  | _ => false

/-- The one-character strings of a string, in order (what iterating a Python
string yields). -/
def str_items (s : String) : List PyObj :=
  s.data.map (fun c => PyObj.str (String.mk [c]))

/-- `PyObject_GetIter`: a fresh iterator over an iterable, `NULL` (`none`) for
an object that is not iterable. An iterator is its own iterator. -/
def PyObject_GetIter : PyObj → Option PyObj
  | .iter pending => some (.iter pending)
  | .list items => some (.iter (items.map (Pull.yield [])))
  | .tuple items => some (.iter (items.map (Pull.yield [])))
  | .str s => some (.iter ((str_items s).map (Pull.yield [])))
  | .file lines => some (.iter (lines.map (fun l => Pull.yield [] (.str l))))
  | .none => Option.none
  | .int _ => Option.none

/-! ## The request -/

/-- Modelled from the spec: the `request_state` flags, whose `enum` is declared
in a header that is not part of the sources. The spec describes `state` as a
bitset of the flags RESPONSE_FROM_APPLICATION_CALLBACK, HEADERS_SENT,
STRING_RESPONSE, FILE_RESPONSE and ITER_RESPONSE; each field is one flag,
`state |= F` sets the field and `state & F` reads it. -/
structure request_state where
  REQUEST_RESPONSE_WSGI : Bool
  REQUEST_RESPONSE_HEADERS_SENT : Bool
  REQUEST_WSGI_STRING_RESPONSE : Bool
  REQUEST_WSGI_FILE_RESPONSE : Bool
  REQUEST_WSGI_ITER_RESPONSE : Bool
deriving DecidableEq

/-- The fields of `Request` that `wsgi.c` reads and writes. -/
structure Request where
  state : request_state
  status : Option PyObj
  response_headers : Option PyObj
  response : Option PyObj
  response_curiter : Option PyObj

/-- A request on which nothing has happened yet. -/
def Request.fresh : Request :=
  { state := ⟨false, false, false, false, false⟩
    status := none
    response_headers := none
    response := none
    response_curiter := none }

/-! ## `start_response` -/

/-- CPython's `PyArg_UnpackTuple (args, "start_response", 2, 3, &a, &b, &c)`:
the `TypeError` it sets when the arity is wrong (nothing is stored then),
otherwise the three slots, the third staying `NULL` for two arguments. -/
def PyArg_UnpackTuple : List PyObj → Except PyErr (PyObj × PyObj × Option PyObj)
  | [a, b] => .ok (a, b, none)
  | [a, b, c] => .ok (a, b, some c)
  | args =>
    if args.length < 2 then
      .error (.TypeError
        ("start_response expected at least 2 arguments, got " ++ toString args.length))
    else
      .error (.TypeError
        ("start_response expected at most 3 arguments, got " ++ toString args.length))

/-- What a call of `start_response` leaves behind. -/
structure Called where
  /-- The request after the call. -/
  req : Request
  /-- The returned pointer: `none` is `NULL`, `some PyObj.none` is `Py_None`. -/
  ret : Option PyObj
  /-- The error the call left in the error indicator, if any. -/
  err : Option PyErr

/-- The `start_response` callable (`wsgi.c`, lines 208-252), called with the
positional arguments `args`; keyword arguments are ignored by the code. -/
def start_response (req : Request) (args : List PyObj) : Called :=
  if req.state.REQUEST_RESPONSE_HEADERS_SENT then
    ⟨req, none, some (.TypeError "start_response called but headers already sent")⟩
  else
    let first_call := req.response_headers.isNone
    match PyArg_UnpackTuple args with
    | .error e => ⟨req, none, some e⟩
    | .ok (status, headers, exc_info) =>
      -- the argument slots ARE the request fields
      let req1 := { req with status := some status, response_headers := some headers }
      let check_rest (err : Option PyErr) : Called :=
        if !PyString_Check req1.status then
          ⟨req1, none, some (.TypeCheck "start_response argument 1")⟩
        else if !PyList_Check req1.response_headers then
          ⟨req1, none, some (.TypeCheck "start_response argument 2")⟩
        else
          ⟨req1, some .none, err⟩
      if !first_call then
        match exc_info with
        | some (.tuple items) =>
          match items with
          | [t, v, tb] => check_rest (some (.Restored t v tb))
          | _ =>
            ⟨req1, none, some (.TypeError
              ("start_response argument 3 must be a tuple of length 3, not of length "
                ++ toString items.length))⟩
        | _ => ⟨req1, none, some (.TypeCheck "start_response argument 3")⟩
      else
        check_rest none

/-- The request after the `start_response` calls with the argument tuples
`calls`, made one after the other by application code. -/
def run_calls (req : Request) : List (List PyObj) → Request
  | [] => req
  | args :: rest => run_calls (start_response req args).req rest

/-! ## The application call -/

/-- How the application callable ends. -/
inductive Outcome : Type
  | returns (retval : PyObj) : Outcome
  | raises (exc : PyObj) : Outcome

/-- One run of the application callable `wsgi_app (environ, start_response)`:
the `start_response` calls it makes while it runs, then how it ends. -/
structure App where
  calls : List (List PyObj)
  outcome : Outcome

/-- What `PyIter_Next` leaves behind. -/
structure Pulled where
  /-- The returned item, `none` (`NULL`) when exhausted or when an error was raised. -/
  item : Option PyObj
  /-- The error raised by the iterator code, if any (`PyErr_Occurred`). -/
  err : Option PyErr
  /-- The iterator after the pull. -/
  iter : PyObj
  /-- The request after the `start_response` calls made by the iterator code. -/
  req : Request

/-- `PyIter_Next (it)` with the request the iterator code may report to;
`none` when `it` is not an iterator, for which C defines no result. -/
def PyIter_Next (it : PyObj) (req : Request) : Option Pulled :=
  match it with
  | .iter [] => some ⟨none, none, .iter [], req⟩
  | .iter (.yield calls item :: rest) => some ⟨some item, none, .iter rest, run_calls req calls⟩
  | .iter (.raise calls exc :: _) => some ⟨none, some (.Raised exc), .iter [], run_calls req calls⟩
  | _ => none

/-- What `wsgi_call_application` leaves behind. -/
structure Invoked where
  /-- The C return value: `true` is success. -/
  ok : Bool
  req : Request
  /-- The error left in the error indicator on failure. -/
  err : Option PyErr

/-- The label `out:` of `wsgi_call_application` (lines 86-94). -/
def wsgi_call_application_out (req : Request) : Invoked :=
  if req.response_headers.isNone then
    ⟨false, req, some (.TypeError "wsgi application returned before start_response was called")⟩
  else
    ⟨true, req, none⟩

/-- The label `string_resp:` of `wsgi_call_application` (lines 57-60). -/
def wsgi_call_application_string_resp (req : Request) (retval : PyObj) : Invoked :=
  wsgi_call_application_out
    { req with
      state := { req.state with REQUEST_WSGI_STRING_RESPONSE := true }
      response := some retval }

/-- The function `wsgi_call_application` (lines 20-95) for one run `app` of
the application callable. -/
def wsgi_call_application (app : App) (req : Request) : Invoked :=
  let req := run_calls req app.calls
  match app.outcome with
  | .raises exc => ⟨false, req, some (.Raised exc)⟩
  | .returns retval =>
    let req := { req with state := { req.state with REQUEST_RESPONSE_WSGI := true } }
    match retval with
    | .list [item] => wsgi_call_application_string_resp req item
    | _ =>
      if PyFile_Check retval then
        wsgi_call_application_out
          { req with
            state := { req.state with REQUEST_WSGI_FILE_RESPONSE := true }
            response := some retval }
      else if PyString_Check (some retval) then
        wsgi_call_application_string_resp req retval
      else
        match PyObject_GetIter retval with
        | none => ⟨false, req, some (.TypeCheck "wsgi application return value")⟩
        | some it =>
          let req := { req with
            state := { req.state with REQUEST_WSGI_ITER_RESPONSE := true }
            response := some it }
          match PyIter_Next it req with
          | none => ⟨false, req, some (.TypeCheck "wsgi application return value")⟩
          | some p =>
            let req := { p.req with response := some p.iter, response_curiter := p.item }
            match p.err with
            | some e => ⟨false, req, some e⟩
            | none => wsgi_call_application_out req

/-! ## The connection -/

/-- Modelled from the spec: the connection behind `sendall`, which `server.h`
declares and whose body is not part of the sources. The spec describes a
best-effort writer that may accept fewer bytes than given and never raises;
`wsgi.c` only sees whether the whole buffer was accepted. `passed` lists the
buffers handed to `sendall` so far, oldest first; `script` says for each
coming call whether the whole buffer will be accepted, and once it is used up
every buffer is accepted. -/
structure Socket where
  passed : List String
  script : List Bool

/-- Modelled from the spec: `sendall (request, data, length)`, the writer of
`server.h`; returns whether all of `data` was accepted. -/
def sendall (sock : Socket) (data : String) : Bool × Socket :=
  match sock.script with
  | [] => (true, { sock with passed := sock.passed ++ [data] })
  | b :: rest => (b, { passed := sock.passed ++ [data], script := rest })

/-- A writer that accepts every write. -/
def Socket.accepts_all (sock : Socket) : Prop :=
  ∀ b ∈ sock.script, b = true

/-! ## Sending -/

/-- Where C defines no result. -/
inductive Fault : Type
  /-- An `assert(0)` was reached, in the named function. -/
  | assertion (fn : String) : Fault
  /-- An unchecked accessor read an object of another type, or `NULL`. -/
  | bad_access (what : String) : Fault
  /-- The header buffer `buf[1024*4]` was written past its end. -/
  | buffer_overrun : Fault

/-- What a sender that returns leaves behind. -/
structure Sent where
  /-- The C return value: `true` ends the response, `false` asks to be called again. -/
  ret : Bool
  req : Request
  sock : Socket
  /-- The error left in the error indicator, if any. -/
  err : Option PyErr

/-- Size of `buf` in `wsgi_sendheaders`. -/
def BUFSIZE : Nat := 1024 * 4

/-- The macro `buf_write (src, len)`: appends at `bufpos`, with no bound check. -/
def buf_write (buf : String) (src : String) : Except Fault String :=
  if buf.length + src.length ≤ BUFSIZE then .ok (buf ++ src) else .error .buffer_overrun

/-- The `for` loop of `wsgi_sendheaders` (lines 131-152) over the remaining
entries of the header list: the buffer after the loop, or the `TypeError`
that ends it. -/
def sendheaders_loop : List PyObj → String → Except Fault (Except PyErr String)
  | [], buf => .ok (.ok buf)
  | entry :: rest, buf =>
    match entry with
    | .tuple items =>
      match items with
      | field :: value :: _ =>
        match field, value with
        | .str f, .str v =>
          match buf_write buf "\r\n" with
          | .error e => .error e
          | .ok b1 =>
            match buf_write b1 f with
            | .error e => .error e
            | .ok b2 =>
              match buf_write b2 ": " with
              | .error e => .error e
              | .ok b3 =>
                match buf_write b3 v with
                | .error e => .error e
                | .ok b4 => sendheaders_loop rest b4
        | _, _ => .ok (.error (.TypeCheck "header tuple items"))
      | _ =>
        .ok (.error (.TypeError
          ("headers must be tuples of length 2, not " ++ toString items.length)))
    | _ => .ok (.error (.TypeCheck "headers"))

/-- The function `wsgi_sendheaders` (lines 114-156). It returns `true` when
the response must not go on. -/
def wsgi_sendheaders (req : Request) (sock : Socket) : Except Fault Sent :=
  match buf_write "" "HTTP/1.1 " with
  | .error e => .error e
  | .ok b0 =>
    match req.status with
    | some (.str status) =>
      match buf_write b0 status with
      | .error e => .error e
      | .ok b1 =>
        match req.response_headers with
        | some (.list headers) =>
          match sendheaders_loop headers b1 with
          | .error e => .error e
          | .ok (.error err) => .ok ⟨true, req, sock, some err⟩
          | .ok (.ok b2) =>
            match buf_write b2 "\r\n\r\n" with
            | .error e => .error e
            | .ok buf =>
              let r := sendall sock buf
              .ok ⟨!r.1, req, r.2, none⟩
        | _ => .error (.bad_access "PyList_GET_SIZE (request->response_headers)")
    | _ => .error (.bad_access "PyString_AS_STRING (request->status)")

/-- The function `wsgi_sendstring` (lines 158-167). -/
def wsgi_sendstring (req : Request) (sock : Socket) : Except Fault Sent :=
  match req.response with
  | some (.str s) => .ok ⟨true, req, (sendall sock s).2, none⟩
  | _ => .error (.bad_access "PyString_AS_STRING (request->response)")

/-- The function `wsgi_sendfile` (lines 169-173). -/
def wsgi_sendfile (_req : Request) (_sock : Socket) : Except Fault Sent :=
  .error (.assertion "wsgi_sendfile")

/-- The constant `ITER_MAXSEND`. -/
def ITER_MAXSEND : Nat := 1024 * 4

/-- How one round of the loop of `wsgi_senditer` goes up to the pull. -/
inductive Round : Type
  /-- The function returns in this round, or the loop is left with a chunk in hand. -/
  | done (r : Sent) : Round
  /-- The chunk was written; `sent` is updated and `PyIter_Next` comes next. -/
  | pull (sent : Nat) (sock : Socket) : Round

/-- One round of the `while` loop of `wsgi_senditer` up to the pull (lines
183-189), with the current chunk `cur`, which is not `NULL`: the budget test
(when it fails the loop is left and, `curiter` being set, lines 198-200 store
it and return `false`), the type check, the write and the accounting. `sent`
is a `ssize_t` below `ITER_MAXSEND` when a chunk length is added to it, so the
sum does not overflow for any string that fits in memory. -/
def senditer_round (cur : PyObj) (sent : Nat) (req : Request) (sock : Socket) : Round :=
  if sent < ITER_MAXSEND then
    match cur with
    | .str s =>
      match sendall sock s with
      | (false, sock1) => .done ⟨true, req, sock1, none⟩
      | (true, sock1) => .pull (sent + s.length) sock1
    | _ => .done ⟨true, req, sock, some (.TypeCheck "wsgi iterable items")⟩
  else
    .done ⟨false, { req with response_curiter := some cur }, sock, none⟩

/-- The `while` loop of `wsgi_senditer` and the `if` after it (lines 183-203),
entered with a current chunk `cur` that is not `NULL`. The first argument is
what the iterator `request->response` still holds and `sent` the bytes written
so far in this call. After the round, the next item is taken as `PyIter_Next`
does: the `start_response` calls of the iterator code run on the request and
the iterator keeps the rest; an exhausted iterator leaves `curiter` `NULL`, so
that the loop ends and the function returns `true`. -/
def senditer_loop : List Pull → PyObj → Nat → Request → Socket → Sent
  | [], cur, sent, req, sock =>
    match senditer_round cur sent req sock with
    | .done r => r
    | .pull _ sock1 => ⟨true, { req with response := some (.iter []) }, sock1, none⟩
  | .yield calls item :: rest, cur, sent, req, sock =>
    match senditer_round cur sent req sock with
    | .done r => r
    | .pull sent1 sock1 =>
      senditer_loop rest item sent1
        { run_calls req calls with response := some (.iter rest) } sock1
  | .raise calls exc :: _, cur, sent, req, sock =>
    match senditer_round cur sent req sock with
    | .done r => r
    | .pull _ sock1 =>
      ⟨true, { run_calls req calls with response := some (.iter []) }, sock1,
        some (.Raised exc)⟩

/-- The function `wsgi_senditer` (lines 175-204). When `request->response` is
not an iterator the first `PyIter_Next` has no defined result. -/
def wsgi_senditer (req : Request) (sock : Socket) : Except Fault Sent :=
  match req.response_curiter with
  | none => .ok ⟨true, req, sock, none⟩
  | some cur =>
    match req.response with
    | some (.iter pending) => .ok (senditer_loop pending cur 0 req sock)
    | _ =>
      match cur with
      | .str s =>
        match sendall sock s with
        | (false, sock1) => .ok ⟨true, req, sock1, none⟩
        | (true, _) => .error (.bad_access "PyIter_Next (request->response)")
      | _ => .ok ⟨true, req, sock, some (.TypeCheck "wsgi iterable items")⟩

/-- The dispatch at the end of `wsgi_send_response` (lines 106-111). -/
def wsgi_send_body (req : Request) (sock : Socket) : Except Fault Sent :=
  if req.state.REQUEST_WSGI_STRING_RESPONSE then wsgi_sendstring req sock
  else if req.state.REQUEST_WSGI_FILE_RESPONSE then wsgi_sendfile req sock
  else if req.state.REQUEST_WSGI_ITER_RESPONSE then wsgi_senditer req sock
  else .error (.assertion "wsgi_send_response")

/-- The function `wsgi_send_response` (lines 97-112). -/
def wsgi_send_response (req : Request) (sock : Socket) : Except Fault Sent :=
  if !req.state.REQUEST_RESPONSE_HEADERS_SENT then
    match wsgi_sendheaders req sock with
    | .error e => .error e
    | .ok h =>
      if h.ret then .ok h
      else
        wsgi_send_body
          { h.req with state := { h.req.state with REQUEST_RESPONSE_HEADERS_SENT := true } }
          h.sock
  else
    wsgi_send_body req sock

/-- The caller of `wsgi_send_response`: the write-ready event calls it again
as long as it returns `false`. The results of the calls that returned `false`,
in order, and the result of the first call that returned `true`; `none` when
a call has no defined result or when `fuel` calls were not enough. -/
def send_until_done : Nat → Request → Socket → Option (List Sent × Sent)
  | 0, _, _ => none
  | fuel + 1, req, sock =>
    match wsgi_send_response req sock with
    | .error _ => none
    | .ok r =>
      if r.ret then some ([], r)
      else
        match send_until_done fuel r.req r.sock with
        | none => none
        | some (blocked, final) => some (r :: blocked, final)

/-- What `send_until_done` collects once a call has returned `r`: `r` alone
when it returned `true`, otherwise `r` and the results of the calls after it. -/
def resume (fuel : Nat) (r : Sent) : Option (List Sent × Sent) :=
  if r.ret then some ([], r)
  else
    match send_until_done fuel r.req r.sock with
    | none => none
    | some (blocked, final) => some (r :: blocked, final)

/-- The part of a round of the loop of `wsgi_senditer` that follows a write:
the pull of the next item from what the iterator holds, and the rounds after
it. -/
def senditer_pull (pending : List Pull) (sent : Nat) (req : Request) (sock : Socket) : Sent :=
  match pending with
  | [] => ⟨true, { req with response := some (.iter []) }, sock, none⟩
  | .yield calls item :: rest =>
    senditer_loop rest item sent { run_calls req calls with response := some (.iter rest) } sock
  | .raise calls exc :: _ =>
    ⟨true, { run_calls req calls with response := some (.iter []) }, sock, some (.Raised exc)⟩

/-- The item a pull yields, `none` for a pull that raises. -/
def Pull.item : Pull → Option PyObj
  | .yield _ item => some item
  | .raise _ _ => none

/-- The items an iterator payload has yet to deliver: the current chunk
`response_curiter`, then what each coming pull yields. Nothing when
`response_curiter` is `NULL`, where `wsgi_senditer` stops. -/
def remaining_items (curiter : Option PyObj) (pending : List Pull) : List (Option PyObj) :=
  match curiter with
  | none => []
  | some cur => some cur :: pending.map Pull.item

/-- The flags of a request in the middle of an iterator response: headers
sent and the iterator variant the one `wsgi_send_response` dispatches to. -/
def IterFlags (st : request_state) : Prop :=
  st.REQUEST_RESPONSE_HEADERS_SENT = true
  ∧ st.REQUEST_WSGI_STRING_RESPONSE = false
  ∧ st.REQUEST_WSGI_FILE_RESPONSE = false
  ∧ st.REQUEST_WSGI_ITER_RESPONSE = true

/-- A request in the middle of an iterator response, with current chunk `cur`
and an iterator holding the pulls `pending`. -/
def Mid (req : Request) (cur : PyObj) (pending : List Pull) : Prop :=
  IterFlags req.state
  ∧ req.response_curiter = some cur
  ∧ req.response = some (.iter pending)

/-- Whether the first `next()` of an iterator raises. -/
def first_pull_raises : PyObj → Bool
  | .iter (.raise _ _ :: _) => true
  | _ => false

/-! ## Measures used in the statements -/

/-- The total number of bytes of the buffers `ws`. -/
def total_bytes (ws : List String) : Nat :=
  (ws.map String.length).sum

/-- The three shape flags of a state: STRING, FILE, ITER. -/
def shape_flags (st : request_state) : Bool × Bool × Bool :=
  (st.REQUEST_WSGI_STRING_RESPONSE, st.REQUEST_WSGI_FILE_RESPONSE,
    st.REQUEST_WSGI_ITER_RESPONSE)

/-- How many of the three shape flags are set. -/
def shape_count (st : request_state) : Nat :=
  st.REQUEST_WSGI_STRING_RESPONSE.toNat + st.REQUEST_WSGI_FILE_RESPONSE.toNat
    + st.REQUEST_WSGI_ITER_RESPONSE.toNat

/-- What the coming pulls of the iterator `request->response` yield, in order
(`none` for a pull that raises); nothing when the response is not an
iterator. -/
def iterator_items : Option PyObj → List (Option PyObj)
  | some (.iter pending) => pending.map Pull.item
  | _ => []

/-- The payload a request has yet to deliver, as the body sender of its
variant sees it: the stored response for the STRING variant; for the ITER
variant the current chunk `response_curiter` followed by what the iterator
yields, and nothing when `response_curiter` is `NULL`; nothing for the FILE
variant, whose sender sends nothing. -/
def payload_items (q : Request) : List (Option PyObj) :=
  if q.state.REQUEST_WSGI_STRING_RESPONSE then [q.response]
  else if q.state.REQUEST_WSGI_FILE_RESPONSE then []
  else if q.state.REQUEST_WSGI_ITER_RESPONSE then
    match q.response_curiter with
    | none => []
    | some cur => some cur :: iterator_items q.response
  else []

/-! ## Example applications -/

/-- The application `start_response ("200 OK", [("Content-Type",
"text/plain")]); return iter (["a", "b", "c"])`. -/
def abc_app : App :=
  ⟨[[.str "200 OK", .list [.tuple [.str "Content-Type", .str "text/plain"]]]],
   .returns (.iter [.yield [] (.str "a"), .yield [] (.str "b"), .yield [] (.str "c")])⟩

/-- The request after `abc_app` was called on a fresh request. -/
def abc_request : Request :=
  (wsgi_call_application abc_app Request.fresh).req

/-- A chunk of `ITER_MAXSEND` bytes. -/
def big_chunk : String :=
  String.mk (List.replicate ITER_MAXSEND 'x')

/-- As `abc_app`, with a first chunk that uses up the budget of a call. -/
def big_app : App :=
  ⟨[[.str "200 OK", .list [.tuple [.str "Content-Type", .str "text/plain"]]]],
   .returns (.iter [.yield [] (.str big_chunk), .yield [] (.str "b"), .yield [] (.str "c")])⟩

/-- The application `start_response ("200 OK", []); return iter (["a", 42,
"c"])`, whose second chunk is not a string. -/
def bad_chunk_app : App :=
  ⟨[[.str "200 OK", .list []]],
   .returns (.iter [.yield [] (.str "a"), .yield [] (.int 42), .yield [] (.str "c")])⟩

/-- The request after `bad_chunk_app` was called on a fresh request. -/
def bad_chunk_request : Request :=
  (wsgi_call_application bad_chunk_app Request.fresh).req

/-- The request after `big_app` was called on a fresh request. -/
def big_request : Request :=
  (wsgi_call_application big_app Request.fresh).req

/-- A request in the middle of an iterator response over "a", "b", "c": the
headers are sent and "a" is the current chunk. -/
def mid_request : Request :=
  { state := ⟨true, true, false, false, true⟩
    status := some (.str "200 OK")
    response_headers := some (.list [])
    response := some (.iter [.yield [] (.str "b"), .yield [] (.str "c")])
    response_curiter := some (.str "a") }

/-- The application `start_response ("200 OK", []); return [42]`. -/
def list_of_int_app : App :=
  ⟨[[.str "200 OK", .list []]], .returns (.list [.int 42])⟩

/-- The application `start_response ("200 OK", []); return f` for a file `f`. -/
def file_app : App :=
  ⟨[[.str "200 OK", .list []]], .returns (.file ["hello\n"])⟩

/-- The request after `file_app` was called on a fresh request. -/
def file_request : Request :=
  (wsgi_call_application file_app Request.fresh).req

/-! ## The wire format, in the words of the specification -/

/-- A header entry given by its name, its value and the further elements of
the tuple. -/
abbrev Header : Type := String × String × List PyObj

/-- The tuple object of a header entry. -/
def Header.toPyObj (h : Header) : PyObj :=
  .tuple (.str h.1 :: .str h.2.1 :: h.2.2)

/-- Specification: the header lines, `name ": " value CRLF` for each entry in
list order. -/
def spec_header_lines : List Header → String
  | [] => ""
  | h :: rest => h.1 ++ ": " ++ h.2.1 ++ "\r\n" ++ spec_header_lines rest

/-- Specification: the wire format
`"HTTP/1.1 " + status_line + CRLF + (name ": " value CRLF)* + CRLF`. -/
def spec_wire_format (status : String) (headers : List Header) : String :=
  "HTTP/1.1 " ++ status ++ "\r\n" ++ spec_header_lines headers ++ "\r\n"

/-! ## Lemmas -/

/-- What the loop of `wsgi_sendheaders` appends for well-formed entries. -/
def loop_lines : List Header → String
  | [] => ""
  | h :: rest => "\r\n" ++ h.1 ++ ": " ++ h.2.1 ++ loop_lines rest

theorem loop_lines_spec (hs : List Header) :
    loop_lines hs ++ "\r\n\r\n" = "\r\n" ++ spec_header_lines hs ++ "\r\n" := by
  induction hs with
  | nil => rfl
  | cons h rest ih =>
    have e : "\r\n" ++ h.1 ++ ": " ++ h.2.1 ++ loop_lines rest ++ "\r\n\r\n"
        = "\r\n" ++ h.1 ++ ": " ++ h.2.1 ++ (loop_lines rest ++ "\r\n\r\n") := by
      simp only [String.append_assoc]
    simp only [loop_lines, spec_header_lines]
    rw [e, ih]
    simp only [String.append_assoc]

theorem buf_write_ok (buf src : String) (h : buf.length + src.length ≤ BUFSIZE) :
    buf_write buf src = .ok (buf ++ src) := by
  simp [buf_write, h]

theorem sendheaders_loop_ok (hs : List Header) :
    ∀ buf : String, (buf ++ loop_lines hs).length ≤ BUFSIZE →
      sendheaders_loop (hs.map Header.toPyObj) buf = .ok (.ok (buf ++ loop_lines hs)) := by
  induction hs with
  | nil =>
    intro buf _
    simp [sendheaders_loop, loop_lines]
  | cons h rest ih =>
    intro buf hlen
    simp only [loop_lines, String.length_append] at hlen
    have h1 : buf_write buf "\r\n" = .ok (buf ++ "\r\n") :=
      buf_write_ok _ _ (by omega)
    have h2 : buf_write (buf ++ "\r\n") h.1 = .ok (buf ++ "\r\n" ++ h.1) :=
      buf_write_ok _ _ (by simp only [String.length_append]; omega)
    have h3 : buf_write (buf ++ "\r\n" ++ h.1) ": " = .ok (buf ++ "\r\n" ++ h.1 ++ ": ") :=
      buf_write_ok _ _ (by simp only [String.length_append]; omega)
    have h4 : buf_write (buf ++ "\r\n" ++ h.1 ++ ": ") h.2.1
        = .ok (buf ++ "\r\n" ++ h.1 ++ ": " ++ h.2.1) :=
      buf_write_ok _ _ (by simp only [String.length_append]; omega)
    have hrest := ih (buf ++ "\r\n" ++ h.1 ++ ": " ++ h.2.1)
      (by simp only [String.length_append]; omega)
    simp only [List.map_cons, Header.toPyObj, sendheaders_loop, h1, h2, h3, h4, hrest,
      loop_lines]
    simp only [String.append_assoc]

theorem spec_wire_format_eq (s : String) (hs : List Header) :
    spec_wire_format s hs = "HTTP/1.1 " ++ s ++ loop_lines hs ++ "\r\n\r\n" := by
  rw [String.append_assoc ("HTTP/1.1 " ++ s), loop_lines_spec]
  simp only [spec_wire_format, String.append_assoc]

/-- The loop stops at the first entry that is a tuple of fewer than two
elements, when the entries before it are well formed and fit the buffer. -/
theorem sendheaders_loop_short (good : List Header) (items rest : List PyObj)
    (hshort : items.length < 2) :
    ∀ buf : String, (buf ++ loop_lines good).length ≤ BUFSIZE →
      sendheaders_loop (good.map Header.toPyObj ++ .tuple items :: rest) buf
        = .ok (.error (.TypeError
            ("headers must be tuples of length 2, not " ++ toString items.length))) := by
  induction good with
  | nil =>
    intro buf _
    match items, hshort with
    | [], _ => simp [sendheaders_loop]
    | [_], _ => simp [sendheaders_loop]
  | cons h more ih =>
    intro buf hlen
    simp only [loop_lines, String.length_append] at hlen
    have h1 : buf_write buf "\r\n" = .ok (buf ++ "\r\n") :=
      buf_write_ok _ _ (by omega)
    have h2 : buf_write (buf ++ "\r\n") h.1 = .ok (buf ++ "\r\n" ++ h.1) :=
      buf_write_ok _ _ (by simp only [String.length_append]; omega)
    have h3 : buf_write (buf ++ "\r\n" ++ h.1) ": " = .ok (buf ++ "\r\n" ++ h.1 ++ ": ") :=
      buf_write_ok _ _ (by simp only [String.length_append]; omega)
    have h4 : buf_write (buf ++ "\r\n" ++ h.1 ++ ": ") h.2.1
        = .ok (buf ++ "\r\n" ++ h.1 ++ ": " ++ h.2.1) :=
      buf_write_ok _ _ (by simp only [String.length_append]; omega)
    have hrest := ih (buf ++ "\r\n" ++ h.1 ++ ": " ++ h.2.1)
      (by simp only [String.length_append]; omega)
    rw [List.map_cons, List.cons_append]
    simp only [Header.toPyObj, sendheaders_loop, h1, h2, h3, h4]
    exact hrest

/-- For a string status and well-formed header entries that fit the buffer,
`wsgi_sendheaders` hands the wire format to `sendall` in one call. -/
theorem wsgi_sendheaders_ok (req : Request) (sock : Socket) (s : String) (hs : List Header)
    (hstatus : req.status = some (.str s))
    (hheaders : req.response_headers = some (.list (hs.map Header.toPyObj)))
    (hfit : (spec_wire_format s hs).length ≤ BUFSIZE) :
    wsgi_sendheaders req sock
      = .ok ⟨!(sendall sock (spec_wire_format s hs)).1, req,
          (sendall sock (spec_wire_format s hs)).2, none⟩ := by
  have hw : spec_wire_format s hs = "HTTP/1.1 " ++ s ++ loop_lines hs ++ "\r\n\r\n" := by
    rw [String.append_assoc ("HTTP/1.1 " ++ s), loop_lines_spec]
    simp only [spec_wire_format, String.append_assoc]
  rw [hw] at hfit ⊢
  simp only [String.length_append] at hfit
  have h0 : buf_write "" "HTTP/1.1 " = .ok "HTTP/1.1 " := by rfl
  have h1 : buf_write "HTTP/1.1 " s = .ok ("HTTP/1.1 " ++ s) :=
    buf_write_ok _ _ (by omega)
  have h2 := sendheaders_loop_ok hs ("HTTP/1.1 " ++ s)
    (by simp only [String.length_append]; omega)
  have h3 : buf_write ("HTTP/1.1 " ++ s ++ loop_lines hs) "\r\n\r\n"
      = .ok ("HTTP/1.1 " ++ s ++ loop_lines hs ++ "\r\n\r\n") :=
    buf_write_ok _ _ (by simp only [String.length_append]; omega)
  simp only [wsgi_sendheaders, h0, hstatus, h1, hheaders, h2, h3]

theorem sendall_passed (sock : Socket) (data : String) :
    (sendall sock data).2.passed = sock.passed ++ [data] := by
  unfold sendall
  split <;> rfl

/-! ## Header serialization -/

/-- Claim C1. For every status string `s` and every header list whose entries
are tuples starting with two strings (further elements are ignored), whose
rendering fits the 4096-byte buffer, `wsgi_sendheaders` returns and hands to
the writer, in one `sendall` call, exactly
`"HTTP/1.1 " ++ s ++ CRLF ++ (name ++ ": " ++ value ++ CRLF)* ++ CRLF`,
leaving the request as it was and raising nothing; its return value is the
negation of what `sendall` answered. For an empty header list the bytes are
`"HTTP/1.1 " ++ s ++ CRLF ++ CRLF`. -/
theorem wsgi_sendheaders_wire_format (req : Request) (sock : Socket) (s : String)
    (hs : List Header)
    (hstatus : req.status = some (.str s))
    (hheaders : req.response_headers = some (.list (hs.map Header.toPyObj)))
    (hfit : (spec_wire_format s hs).length ≤ BUFSIZE) :
    (∃ r : Sent, wsgi_sendheaders req sock = .ok r
      ∧ r.sock.passed = sock.passed ++ [spec_wire_format s hs]
      ∧ r.ret = !(sendall sock (spec_wire_format s hs)).1
      ∧ r.req = req ∧ r.err = none)
    ∧ spec_wire_format s [] = "HTTP/1.1 " ++ s ++ "\r\n" ++ "\r\n" := by
  refine ⟨⟨_, wsgi_sendheaders_ok req sock s hs hstatus hheaders hfit, ?_, rfl, rfl, rfl⟩, ?_⟩
  · exact sendall_passed sock _
  · simp [spec_wire_format, spec_header_lines]

/-- Claim C1, the example of the specification: status `"200 OK"` with the
headers `[("Content-Type","text/plain"),("X-Test","1")]`, on a fresh
connection. -/
theorem wsgi_sendheaders_wire_format_witness :
    (spec_wire_format "200 OK"
        [("Content-Type", "text/plain", []), ("X-Test", "1", [])]).length ≤ BUFSIZE
    ∧ ((∃ r : Sent,
        wsgi_sendheaders
          { Request.fresh with
            status := some (.str "200 OK")
            response_headers := some (.list
              [.tuple [.str "Content-Type", .str "text/plain"],
               .tuple [.str "X-Test", .str "1"]]) }
          ⟨[], []⟩ = .ok r
        ∧ r.sock.passed
            = [] ++ ["HTTP/1.1 200 OK\r\nContent-Type: text/plain\r\nX-Test: 1\r\n\r\n"]
        ∧ r.ret = !(sendall ⟨[], []⟩ (spec_wire_format "200 OK"
            [("Content-Type", "text/plain", []), ("X-Test", "1", [])])).1
        ∧ r.req = { Request.fresh with
            status := some (.str "200 OK")
            response_headers := some (.list
              [.tuple [.str "Content-Type", .str "text/plain"],
               .tuple [.str "X-Test", .str "1"]]) }
        ∧ r.err = none)
      ∧ spec_wire_format "200 OK" [] = "HTTP/1.1 " ++ "200 OK" ++ "\r\n" ++ "\r\n") :=
  ⟨by decide,
   wsgi_sendheaders_wire_format
     { Request.fresh with
       status := some (.str "200 OK")
       response_headers := some (.list
         [.tuple [.str "Content-Type", .str "text/plain"],
          .tuple [.str "X-Test", .str "1"]]) }
     ⟨[], []⟩ "200 OK" [("Content-Type", "text/plain", []), ("X-Test", "1", [])]
     rfl rfl (by decide)⟩

/-! ## `start_response` -/

theorem start_response_state (req : Request) (args : List PyObj) :
    (start_response req args).req.state = req.state := by
  unfold start_response
  simp only
  repeat' split
  all_goals rfl

theorem run_calls_state (calls : List (List PyObj)) :
    ∀ req : Request, (run_calls req calls).state = req.state := by
  induction calls with
  | nil => intro req; rfl
  | cons args rest ih =>
    intro req
    simp only [run_calls]
    rw [ih, start_response_state]

theorem start_response_headers_sent (req : Request) (args : List PyObj)
    (h : req.state.REQUEST_RESPONSE_HEADERS_SENT = true) :
    start_response req args
      = ⟨req, none, some (.TypeError "start_response called but headers already sent")⟩ := by
  simp [start_response, h]

theorem run_calls_headers_sent (calls : List (List PyObj)) :
    ∀ req : Request, req.state.REQUEST_RESPONSE_HEADERS_SENT = true →
      run_calls req calls = req := by
  induction calls with
  | nil => intro req _; rfl
  | cons args rest ih =>
    intro req h
    simp only [run_calls, start_response_headers_sent req args h]
    exact ih req h

theorem PyString_Check_iff (o : Option PyObj) :
    PyString_Check o = true ↔ ∃ s, o = some (.str s) := by
  unfold PyString_Check
  split <;> simp_all

theorem PyList_Check_iff (o : Option PyObj) :
    PyList_Check o = true ↔ ∃ items, o = some (.list items) := by
  unfold PyList_Check
  split <;> simp_all

/-- A call that returns a value leaves a string status and a list of headers
in the request. -/
theorem start_response_success (req : Request) (args : List PyObj) (v : PyObj)
    (h : (start_response req args).ret = some v) :
    ∃ s hs, (start_response req args).req.status = some (.str s)
      ∧ (start_response req args).req.response_headers = some (.list hs) := by
  revert h
  unfold start_response
  simp only
  repeat' split
  all_goals first
    | (intro h; simp at h; done)
    | (intro hret
       rename_i hs1 hs2
       simp only [Bool.not_eq_true, Bool.not_eq_eq_eq_not, Bool.not_true, Bool.not_false,
         Bool.not_eq_false] at hs1 hs2
       obtain ⟨s, hs⟩ := (PyString_Check_iff _).1 hs1
       obtain ⟨l, hl⟩ := (PyList_Check_iff _).1 hs2
       exact ⟨s, l, hs, hl⟩)

/-- Claim C4. When HEADERS_SENT is set, `start_response` fails for every
argument tuple: it returns `NULL` with a `TypeError` and leaves the request
(so its status, response_headers and state) unchanged. -/
theorem start_response_after_headers_sent (req : Request) (args : List PyObj)
    (h : req.state.REQUEST_RESPONSE_HEADERS_SENT = true) :
    (start_response req args).ret = none
    ∧ (start_response req args).err
        = some (.TypeError "start_response called but headers already sent")
    ∧ (start_response req args).req = req
    ∧ (start_response req args).req.status = req.status
    ∧ (start_response req args).req.response_headers = req.response_headers
    ∧ (start_response req args).req.state = req.state := by
  rw [start_response_headers_sent req args h]
  exact ⟨rfl, rfl, rfl, rfl, rfl, rfl⟩

/-- Claim C4 on a request whose headers were sent, called with valid arguments. -/
theorem start_response_after_headers_sent_witness :
    (start_response
        { Request.fresh with
          state := ⟨true, true, true, false, false⟩
          status := some (.str "200 OK")
          response_headers := some (.list []) }
        [.str "404 Not Found", .list []]).ret = none
    ∧ (start_response
        { Request.fresh with
          state := ⟨true, true, true, false, false⟩
          status := some (.str "200 OK")
          response_headers := some (.list []) }
        [.str "404 Not Found", .list []]).err
        = some (.TypeError "start_response called but headers already sent")
    ∧ (start_response
        { Request.fresh with
          state := ⟨true, true, true, false, false⟩
          status := some (.str "200 OK")
          response_headers := some (.list []) }
        [.str "404 Not Found", .list []]).req
        = { Request.fresh with
          state := ⟨true, true, true, false, false⟩
          status := some (.str "200 OK")
          response_headers := some (.list []) }
    ∧ (start_response
        { Request.fresh with
          state := ⟨true, true, true, false, false⟩
          status := some (.str "200 OK")
          response_headers := some (.list []) }
        [.str "404 Not Found", .list []]).req.status = some (.str "200 OK")
    ∧ (start_response
        { Request.fresh with
          state := ⟨true, true, true, false, false⟩
          status := some (.str "200 OK")
          response_headers := some (.list []) }
        [.str "404 Not Found", .list []]).req.response_headers = some (.list [])
    ∧ (start_response
        { Request.fresh with
          state := ⟨true, true, true, false, false⟩
          status := some (.str "200 OK")
          response_headers := some (.list []) }
        [.str "404 Not Found", .list []]).req.state = ⟨true, true, true, false, false⟩ :=
  start_response_after_headers_sent
    { Request.fresh with
      state := ⟨true, true, true, false, false⟩
      status := some (.str "200 OK")
      response_headers := some (.list []) }
    [.str "404 Not Found", .list []] rfl

/-- Claim C5. After a `start_response` call that succeeded (so the headers are
not yet sent and `response_headers` is set), a second call with a string
status, a list of headers and a 3-tuple `(t, v, tb)` leaves the request with
the new status and the new headers, and the error it leaves pending is exactly
the one restored from `(t, v, tb)`. -/
theorem start_response_late_replacement (req : Request) (args1 : List PyObj) (v1 : PyObj)
    (status2 : String) (headers2 : List PyObj) (t v tb : PyObj)
    (hfirst : (start_response req args1).ret = some v1) :
    (start_response (start_response req args1).req
        [.str status2, .list headers2, .tuple [t, v, tb]]).req.status = some (.str status2)
    ∧ (start_response (start_response req args1).req
        [.str status2, .list headers2, .tuple [t, v, tb]]).req.response_headers
        = some (.list headers2)
    ∧ (start_response (start_response req args1).req
        [.str status2, .list headers2, .tuple [t, v, tb]]).err = some (.Restored t v tb)
    ∧ (start_response (start_response req args1).req
        [.str status2, .list headers2, .tuple [t, v, tb]]).ret = some .none := by
  obtain ⟨s1, hs1, _, hh1⟩ := start_response_success req args1 v1 hfirst
  have hsent : (start_response req args1).req.state.REQUEST_RESPONSE_HEADERS_SENT = false := by
    rw [start_response_state]
    cases hq : req.state.REQUEST_RESPONSE_HEADERS_SENT
    · rfl
    · rw [start_response_headers_sent req args1 hq] at hfirst
      simp at hfirst
  generalize start_response req args1 = c at *
  simp [start_response, hsent, hh1, PyArg_UnpackTuple, PyString_Check, PyList_Check]

/-- Claim C5 on a fresh request: `start_response ("200 OK", [])`, then
`start_response ("500 Oops", [], (t, v, tb))`. -/
theorem start_response_late_replacement_witness :
    (start_response Request.fresh [.str "200 OK", .list []]).ret = some .none
    ∧ ((start_response (start_response Request.fresh [.str "200 OK", .list []]).req
        [.str "500 Oops", .list [], .tuple [.str "t", .str "v", .none]]).req.status
        = some (.str "500 Oops")
      ∧ (start_response (start_response Request.fresh [.str "200 OK", .list []]).req
        [.str "500 Oops", .list [], .tuple [.str "t", .str "v", .none]]).req.response_headers
        = some (.list [])
      ∧ (start_response (start_response Request.fresh [.str "200 OK", .list []]).req
        [.str "500 Oops", .list [], .tuple [.str "t", .str "v", .none]]).err
        = some (.Restored (.str "t") (.str "v") .none)
      ∧ (start_response (start_response Request.fresh [.str "200 OK", .list []]).req
        [.str "500 Oops", .list [], .tuple [.str "t", .str "v", .none]]).ret = some .none) :=
  ⟨rfl, start_response_late_replacement Request.fresh [.str "200 OK", .list []] .none
    "500 Oops" [] (.str "t") (.str "v") .none rfl⟩

/-! ## `wsgi_call_application` -/

/-- Claim C3. For every string `s`, every run of `start_response` calls and
every initial request, the application call with return value `[s]` gives the
same result, request and error as with return value `s`: the flags
REQUEST_RESPONSE_WSGI and REQUEST_WSGI_STRING_RESPONSE are set, the others are
as they were, and the stored response is `s`. -/
theorem wsgi_call_application_fast_path (s : String) (calls : List (List PyObj))
    (req : Request) :
    wsgi_call_application ⟨calls, .returns (.list [.str s])⟩ req
      = wsgi_call_application ⟨calls, .returns (.str s)⟩ req
    ∧ (wsgi_call_application ⟨calls, .returns (.list [.str s])⟩ req).req.state
      = { req.state with REQUEST_RESPONSE_WSGI := true, REQUEST_WSGI_STRING_RESPONSE := true }
    ∧ (wsgi_call_application ⟨calls, .returns (.list [.str s])⟩ req).req.response
      = some (.str s) := by
  have hst := run_calls_state calls req
  refine ⟨?_, ?_, ?_⟩
  · simp [wsgi_call_application, PyFile_Check, PyString_Check]
  · simp only [wsgi_call_application, wsgi_call_application_string_resp,
      wsgi_call_application_out]
    split <;> simp [hst]
  · simp only [wsgi_call_application, wsgi_call_application_string_resp,
      wsgi_call_application_out]
    split <;> rfl

theorem wsgi_call_application_out_unset (r : Request)
    (h : (wsgi_call_application_out r).req.response_headers = none) :
    (wsgi_call_application_out r).ok = false
    ∧ (wsgi_call_application_out r).err = some (.TypeError
        "wsgi application returned before start_response was called") := by
  revert h
  unfold wsgi_call_application_out
  cases hr : r.response_headers <;> simp [hr]

theorem wsgi_call_application_out_ok (r : Request)
    (h : (wsgi_call_application_out r).ok = true) :
    (wsgi_call_application_out r).req.response_headers ≠ none := by
  revert h
  unfold wsgi_call_application_out
  cases hr : r.response_headers <;> simp [hr]

theorem wsgi_call_application_ok_headers (app : App) (req : Request)
    (h : (wsgi_call_application app req).ok = true) :
    (wsgi_call_application app req).req.response_headers ≠ none := by
  revert h
  unfold wsgi_call_application
  simp only
  split
  · simp
  · split
    · exact wsgi_call_application_out_ok _
    · split
      · exact wsgi_call_application_out_ok _
      · split
        · exact wsgi_call_application_out_ok _
        · split
          · simp
          · split
            · simp
            · split
              · simp
              · exact wsgi_call_application_out_ok _

/-- Claim C6. When the application callable returns an iterable value (a
string, a file, a list, a tuple or an iterator) whose first `next()` does not
raise, and `response_headers` is unset when `wsgi_call_application` is done
with the callback and the first pull, the call fails with the TypeError
"wsgi application returned before start_response was called". Conversely,
whatever the application does and on every request, the call never succeeds
with `response_headers` unset. -/
theorem wsgi_call_application_status_check (app : App) (req : Request)
    (retval it : PyObj)
    (hret : app.outcome = .returns retval)
    (hit : PyObject_GetIter retval = some it)
    (hpull : first_pull_raises it = false)
    (hunset : (wsgi_call_application app req).req.response_headers = none) :
    (wsgi_call_application app req).ok = false
    ∧ (wsgi_call_application app req).err = some (.TypeError
        "wsgi application returned before start_response was called")
    ∧ ∀ (app2 : App) (req2 : Request), (wsgi_call_application app2 req2).ok = true →
        (wsgi_call_application app2 req2).req.response_headers ≠ none := by
  refine ⟨?_, ?_, wsgi_call_application_ok_headers⟩
  all_goals
    revert hunset
    unfold wsgi_call_application
    simp only [hret]
    split
    · exact fun h => by first | exact (wsgi_call_application_out_unset _ h).1
                              | exact (wsgi_call_application_out_unset _ h).2
    · split
      · exact fun h => by first | exact (wsgi_call_application_out_unset _ h).1
                                | exact (wsgi_call_application_out_unset _ h).2
      · split
        · exact fun h => by first | exact (wsgi_call_application_out_unset _ h).1
                                  | exact (wsgi_call_application_out_unset _ h).2
        · rw [hit]
          simp only
          cases it with
          | iter pending =>
            cases pending with
            | nil =>
              simp only [PyIter_Next]
              exact fun h => by first | exact (wsgi_call_application_out_unset _ h).1
                                      | exact (wsgi_call_application_out_unset _ h).2
            | cons p rest =>
              cases p with
              | yield calls item =>
                simp only [PyIter_Next]
                exact fun h => by first | exact (wsgi_call_application_out_unset _ h).1
                                        | exact (wsgi_call_application_out_unset _ h).2
              | raise calls exc => simp [first_pull_raises] at hpull
          | _ => cases retval <;> simp [PyObject_GetIter] at hit

/-- Claim C6 on a generator that yields without having called
`start_response`. -/
theorem wsgi_call_application_status_check_witness :
    (wsgi_call_application ⟨[], .returns (.iter [.yield [] (.str "Hello World")])⟩
        Request.fresh).req.response_headers = none
    ∧ (wsgi_call_application ⟨[], .returns (.iter [.yield [] (.str "Hello World")])⟩
        Request.fresh).ok = false
    ∧ (wsgi_call_application ⟨[], .returns (.iter [.yield [] (.str "Hello World")])⟩
        Request.fresh).err
        = some (.TypeError "wsgi application returned before start_response was called")
    ∧ ∀ (app2 : App) (req2 : Request), (wsgi_call_application app2 req2).ok = true →
        (wsgi_call_application app2 req2).req.response_headers ≠ none :=
  ⟨rfl, wsgi_call_application_status_check
    ⟨[], .returns (.iter [.yield [] (.str "Hello World")])⟩ Request.fresh
    (.iter [.yield [] (.str "Hello World")]) (.iter [.yield [] (.str "Hello World")])
    rfl rfl rfl rfl⟩

/-! ## Malformed header entries -/

/-- Claim C7 as stated fails: the header list `[(), ("X",)]` contains the
tuple `("X",)` of length 1, and serialization fails on the entry before it,
with a message that names the length 0 and not the length 1. -/
theorem wsgi_sendheaders_short_tuple_counterexample :
    PyObj.tuple [.str "X"] ∈ [PyObj.tuple [], PyObj.tuple [.str "X"]]
    ∧ wsgi_sendheaders
        { Request.fresh with
          status := some (.str "200 OK")
          response_headers := some (.list [.tuple [], .tuple [.str "X"]]) }
        ⟨[], []⟩
      = .ok ⟨true,
          { Request.fresh with
            status := some (.str "200 OK")
            response_headers := some (.list [.tuple [], .tuple [.str "X"]]) },
          ⟨[], []⟩,
          some (.TypeError "headers must be tuples of length 2, not 0")⟩
    ∧ PyErr.TypeError "headers must be tuples of length 2, not 0"
      ≠ PyErr.TypeError "headers must be tuples of length 2, not 1" := by
  refine ⟨by simp, rfl, ?_⟩
  intro h
  injection h with h
  exact absurd h (by decide)

/-- Claim C7, amended. When the first entry of the header list that is not a
tuple starting with two strings is a tuple of fewer than two elements, and the
entries before it fit the buffer, `wsgi_sendheaders` fails with the TypeError
"headers must be tuples of length 2, not n", `n` being the length of that
tuple; the `wsgi_send_response` call on a request whose headers are not yet
sent then returns `true` at once: nothing was passed to the writer, the
request is unchanged, so HEADERS_SENT is still unset, and no body byte was
sent. -/
theorem wsgi_send_response_short_tuple (req : Request) (sock : Socket) (s : String)
    (good : List Header) (items rest : List PyObj)
    (hsent : req.state.REQUEST_RESPONSE_HEADERS_SENT = false)
    (hstatus : req.status = some (.str s))
    (hheaders : req.response_headers
      = some (.list (good.map Header.toPyObj ++ .tuple items :: rest)))
    (hshort : items.length < 2)
    (hfit : (spec_wire_format s good).length ≤ BUFSIZE) :
    wsgi_sendheaders req sock
      = .ok ⟨true, req, sock, some (.TypeError
          ("headers must be tuples of length 2, not " ++ toString items.length))⟩
    ∧ wsgi_send_response req sock
      = .ok ⟨true, req, sock, some (.TypeError
          ("headers must be tuples of length 2, not " ++ toString items.length))⟩ := by
  rw [spec_wire_format_eq] at hfit
  simp only [String.length_append] at hfit
  have h0 : buf_write "" "HTTP/1.1 " = .ok "HTTP/1.1 " := by rfl
  have h1 : buf_write "HTTP/1.1 " s = .ok ("HTTP/1.1 " ++ s) :=
    buf_write_ok _ _ (by omega)
  have h2 := sendheaders_loop_short good items rest hshort ("HTTP/1.1 " ++ s)
    (by simp only [String.length_append]; omega)
  have hh : wsgi_sendheaders req sock
      = .ok ⟨true, req, sock, some (.TypeError
          ("headers must be tuples of length 2, not " ++ toString items.length))⟩ := by
    simp only [wsgi_sendheaders, h0, hstatus, h1, hheaders, h2]
  refine ⟨hh, ?_⟩
  simp [wsgi_send_response, hsent, hh]

/-- Claim C7, amended, on the header list `[("Content-Type", "text/plain"),
("X",)]`: the message names the length 1. -/
theorem wsgi_send_response_short_tuple_witness :
    (spec_wire_format "200 OK" [("Content-Type", "text/plain", [])]).length ≤ BUFSIZE
    ∧ wsgi_sendheaders
        { Request.fresh with
          status := some (.str "200 OK")
          response_headers := some (.list
            [.tuple [.str "Content-Type", .str "text/plain"], .tuple [.str "X"]]) }
        ⟨[], []⟩
      = .ok ⟨true,
          { Request.fresh with
            status := some (.str "200 OK")
            response_headers := some (.list
              [.tuple [.str "Content-Type", .str "text/plain"], .tuple [.str "X"]]) },
          ⟨[], []⟩,
          some (.TypeError ("headers must be tuples of length 2, not " ++ toString 1))⟩
    ∧ wsgi_send_response
        { Request.fresh with
          status := some (.str "200 OK")
          response_headers := some (.list
            [.tuple [.str "Content-Type", .str "text/plain"], .tuple [.str "X"]]) }
        ⟨[], []⟩
      = .ok ⟨true,
          { Request.fresh with
            status := some (.str "200 OK")
            response_headers := some (.list
              [.tuple [.str "Content-Type", .str "text/plain"], .tuple [.str "X"]]) },
          ⟨[], []⟩,
          some (.TypeError ("headers must be tuples of length 2, not " ++ toString 1))⟩ :=
  ⟨by decide,
   wsgi_send_response_short_tuple
     { Request.fresh with
       status := some (.str "200 OK")
       response_headers := some (.list
         [.tuple [.str "Content-Type", .str "text/plain"], .tuple [.str "X"]]) }
     ⟨[], []⟩ "200 OK" [("Content-Type", "text/plain", [])] [.str "X"] []
     rfl rfl rfl (by decide) (by decide)⟩

/-! ## Failed `start_response` calls -/

/-- Claim C9 fails on the code. On a fresh request `start_response ("200 OK",
[])` succeeds; the later call `start_response ("500 Oops", [("X", "y")])`,
without exception-info, fails with a TypeError and still leaves its status
and its headers in the request: `PyArg_UnpackTuple` stores the arguments in
the request fields before any check is made. -/
theorem start_response_failed_call_overwrites :
    (start_response Request.fresh [.str "200 OK", .list []]).ret = some .none
    ∧ (start_response Request.fresh [.str "200 OK", .list []]).req.status
      = some (.str "200 OK")
    ∧ (start_response Request.fresh [.str "200 OK", .list []]).req.response_headers
      = some (.list [])
    ∧ (start_response (start_response Request.fresh [.str "200 OK", .list []]).req
        [.str "500 Oops", .list [.tuple [.str "X", .str "y"]]]).ret = none
    ∧ (start_response (start_response Request.fresh [.str "200 OK", .list []]).req
        [.str "500 Oops", .list [.tuple [.str "X", .str "y"]]]).err
      = some (.TypeCheck "start_response argument 3")
    ∧ (start_response (start_response Request.fresh [.str "200 OK", .list []]).req
        [.str "500 Oops", .list [.tuple [.str "X", .str "y"]]]).req.status
      = some (.str "500 Oops")
    ∧ (start_response (start_response Request.fresh [.str "200 OK", .list []]).req
        [.str "500 Oops", .list [.tuple [.str "X", .str "y"]]]).req.response_headers
      = some (.list [.tuple [.str "X", .str "y"]]) :=
  ⟨rfl, rfl, rfl, rfl, rfl, rfl, rfl⟩

/-- Claim C10 fails on the code. On a fresh request the single call
`start_response (42, [])` fails with a TypeError, so no call has succeeded,
and `response_headers` is set all the same; the application call that follows
then passes its check of `response_headers` and reports success with a status
that is not a string. -/
theorem start_response_failed_call_sets_headers :
    (start_response Request.fresh [.int 42, .list []]).ret = none
    ∧ (start_response Request.fresh [.int 42, .list []]).err
      = some (.TypeCheck "start_response argument 1")
    ∧ (start_response Request.fresh [.int 42, .list []]).req.response_headers
      = some (.list [])
    ∧ (wsgi_call_application ⟨[[.int 42, .list []]], .returns (.str "body")⟩
        Request.fresh).ok = true
    ∧ (wsgi_call_application ⟨[[.int 42, .list []]], .returns (.str "body")⟩
        Request.fresh).req.status = some (.int 42) :=
  ⟨rfl, rfl, rfl, rfl, rfl⟩

/-! ## Streaming an iterator -/

theorem send_until_done_succ (fuel : Nat) (req : Request) (sock : Socket) :
    send_until_done (fuel + 1) req sock
      = match wsgi_send_response req sock with
        | .error _ => none
        | .ok r => resume fuel r := by
  simp only [send_until_done, resume]

theorem sendall_accepts (sock : Socket) (data : String) (h : sock.accepts_all) :
    ∃ sock1, sendall sock data = (true, sock1)
      ∧ sock1.passed = sock.passed ++ [data] ∧ sock1.accepts_all := by
  unfold sendall
  cases hs : sock.script with
  | nil =>
    refine ⟨_, rfl, rfl, ?_⟩
    intro b hb
    simp only [hs] at hb
    exact absurd hb (List.not_mem_nil b)
  | cons b rest =>
    have hb : b = true := h b (by rw [hs]; exact List.mem_cons_self b rest)
    subst hb
    refine ⟨_, rfl, rfl, ?_⟩
    intro c hc
    exact h c (by rw [hs]; exact List.mem_cons_of_mem _ hc)

theorem senditer_loop_round (pending : List Pull) (cur : PyObj) (sent : Nat)
    (req : Request) (sock : Socket) :
    senditer_loop pending cur sent req sock
      = match senditer_round cur sent req sock with
        | .done r => r
        | .pull sent1 sock1 => senditer_pull pending sent1 req sock1 := by
  cases pending with
  | nil => rw [senditer_loop]; rfl
  | cons p rest =>
    cases p with
    | yield calls item => rw [senditer_loop]; rfl
    | raise calls exc => rw [senditer_loop]; rfl

theorem senditer_loop_blocked (pending : List Pull) (cur : PyObj) (sent : Nat)
    (req : Request) (sock : Socket) (h : ¬ sent < ITER_MAXSEND) :
    senditer_loop pending cur sent req sock
      = ⟨false, { req with response_curiter := some cur }, sock, none⟩ := by
  rw [senditer_loop_round]
  simp [senditer_round, h]

theorem senditer_loop_write (pending : List Pull) (s : String) (sent : Nat)
    (req : Request) (sock sock1 : Socket) (h : sent < ITER_MAXSEND)
    (hw : sendall sock s = (true, sock1)) :
    senditer_loop pending (.str s) sent req sock
      = senditer_pull pending (sent + s.length) req sock1 := by
  rw [senditer_loop_round]
  simp [senditer_round, h, hw]

theorem senditer_loop_not_string (pending : List Pull) (cur : PyObj) (sent : Nat)
    (req : Request) (sock : Socket) (h : sent < ITER_MAXSEND)
    (hcur : PyString_Check (some cur) = false) :
    senditer_loop pending cur sent req sock
      = ⟨true, req, sock, some (.TypeCheck "wsgi iterable items")⟩ := by
  rw [senditer_loop_round]
  cases cur <;> simp_all [senditer_round, PyString_Check]

theorem Request.set_response_self (req : Request) (x : Option PyObj)
    (h : req.response = x) : { req with response := x } = req := by
  obtain ⟨a, b, c, d, e⟩ := req
  cases h
  rfl

/-- One call of the loop over string chunks, on a writer that accepts every
write. `cur :: gchunks` are string chunks, `good` the pulls that yield
`gchunks`, and `tail` what the iterator holds after them. Either the call
stops for the budget before chunk `k` of `cur :: gchunks`, having written the
`k` chunks before it, or it writes all of them and goes on with the pull from
`tail`. -/
theorem senditer_loop_strings (tail : List Pull) (good : List Pull) :
    ∀ (gchunks : List String) (cur : String) (sent : Nat) (req : Request) (sock : Socket),
      req.state.REQUEST_RESPONSE_HEADERS_SENT = true →
      req.response = some (.iter (good ++ tail)) →
      sock.accepts_all →
      good.map Pull.item = gchunks.map (fun c => some (PyObj.str c)) →
      (∃ k c, (cur :: gchunks)[k]? = some c
        ∧ (sent < ITER_MAXSEND → 0 < k)
        ∧ ∃ sock1 : Socket, sock1.accepts_all
          ∧ sock1.passed = sock.passed ++ (cur :: gchunks).take k
          ∧ senditer_loop (good ++ tail) (.str cur) sent req sock
            = ⟨false, { req with
                  response := some (.iter ((good ++ tail).drop k))
                  response_curiter := some (.str c) }, sock1, none⟩)
      ∨ (∃ (sent2 : Nat) (sock2 : Socket), sock2.accepts_all
          ∧ sock2.passed = sock.passed ++ cur :: gchunks
          ∧ senditer_loop (good ++ tail) (.str cur) sent req sock
            = senditer_pull tail sent2 { req with response := some (.iter tail) } sock2) := by
  induction good with
  | nil =>
    intro gchunks cur sent req sock _ hresp hacc hitems
    have hg : gchunks = [] := by
      cases gchunks with
      | nil => rfl
      | cons c rest => simp at hitems
    subst hg
    by_cases hlt : sent < ITER_MAXSEND
    · right
      obtain ⟨sock1, hw, hp, ha⟩ := sendall_accepts sock cur hacc
      refine ⟨sent + cur.length, sock1, ha, hp, ?_⟩
      rw [List.nil_append] at hresp
      rw [List.nil_append, senditer_loop_write tail cur sent req sock sock1 hlt hw]
      rw [Request.set_response_self req _ hresp]
    · left
      refine ⟨0, cur, rfl, fun h => absurd h hlt, sock, hacc, by simp, ?_⟩
      rw [senditer_loop_blocked _ _ _ _ _ hlt, List.drop_zero]
      conv_lhs => rw [← Request.set_response_self req _ hresp]
  | cons p good2 ih =>
    intro gchunks cur sent req sock hsent hresp hacc hitems
    cases gchunks with
    | nil => simp at hitems
    | cons c gchunks2 =>
      simp only [List.map_cons, List.cons.injEq] at hitems
      obtain ⟨hp, hitems2⟩ := hitems
      obtain ⟨calls, rfl⟩ : ∃ calls, p = .yield calls (.str c) := by
        cases p with
        | yield calls item =>
          simp only [Pull.item, Option.some.injEq] at hp
          exact ⟨calls, by rw [hp]⟩
        | raise calls exc => simp [Pull.item] at hp
      by_cases hlt : sent < ITER_MAXSEND
      · obtain ⟨sock1, hw, hp1, ha1⟩ := sendall_accepts sock cur hacc
        have hstep : senditer_loop (Pull.yield calls (.str c) :: good2 ++ tail) (.str cur)
              sent req sock
            = senditer_loop (good2 ++ tail) (.str c) (sent + cur.length)
                { req with response := some (.iter (good2 ++ tail)) } sock1 := by
          rw [senditer_loop_write _ cur sent req sock sock1 hlt hw]
          simp only [List.cons_append, senditer_pull, run_calls_headers_sent calls req hsent]
        rcases ih gchunks2 c (sent + cur.length)
            { req with response := some (.iter (good2 ++ tail)) } sock1 hsent rfl ha1 hitems2
          with ⟨k, c2, hk, _, sock3, ha3, hp3, hres⟩ | ⟨sent2, sock2, ha2, hp2, hres⟩
        · left
          refine ⟨k + 1, c2, by simpa using hk, fun _ => Nat.succ_pos k, sock3, ha3, ?_, ?_⟩
          · rw [hp3, hp1]
            simp
          · rw [hstep, hres]
            rfl
        · right
          refine ⟨sent2, sock2, ha2, ?_, ?_⟩
          · rw [hp2, hp1]
            simp
          · rw [hstep, hres]
      · left
        refine ⟨0, cur, rfl, fun h => absurd h hlt, sock, hacc, by simp, ?_⟩
        rw [senditer_loop_blocked _ _ _ _ _ hlt, List.drop_zero]
        conv_lhs => rw [← Request.set_response_self req _ hresp]

theorem list_split_at {α : Type} (l : List α) :
    ∀ (j : Nat) (c : α), l[j]? = some c → l = l.take j ++ c :: l.drop (j + 1) := by
  induction l with
  | nil => intro j c h; simp at h
  | cons a rest ih =>
    intro j c h
    cases j with
    | zero =>
      simp only [List.getElem?_cons_zero, Option.some.injEq] at h
      simp [h]
    | succ j =>
      simp only [List.getElem?_cons_succ] at h
      simp only [List.take_succ_cons, List.drop_succ_cons, List.cons_append]
      rw [← ih j c h]

theorem wsgi_send_response_mid (req : Request) (sock : Socket) (cur : PyObj)
    (pending : List Pull) (h : Mid req cur pending) :
    wsgi_send_response req sock = .ok (senditer_loop pending cur 0 req sock) := by
  obtain ⟨⟨h1, h2, h3, h4⟩, hc, hr⟩ := h
  simp [wsgi_send_response, wsgi_send_body, wsgi_senditer, h1, h2, h3, h4, hc, hr]

/-- Calling `wsgi_send_response` until it returns `true`, from the middle of an
iterator response whose coming chunks `cur :: gchunks` are strings, on a
writer that accepts every write. `tail` is what the iterator holds after
these chunks, and `hfin` says how the calls end once the pull from `tail` is
reached. `done` are the chunks written before, `base` what was written before
them. -/
theorem send_until_done_mid (tail : List Pull) (E : Option PyErr) (B : Sent → Prop)
    (extra : Nat)
    (hfin : ∀ (sent2 : Nat) (req2 : Request) (sock2 : Socket),
      IterFlags req2.state → req2.response = some (.iter tail) → sock2.accepts_all →
      ∀ fuel, extra ≤ fuel →
      ∃ blocked final, resume fuel (senditer_pull tail sent2 req2 sock2) = some (blocked, final)
        ∧ final.ret = true ∧ final.err = E ∧ final.sock.passed = sock2.passed
        ∧ ∀ t ∈ blocked, t.ret = false ∧ t.sock.passed = sock2.passed ∧ B t) :
    ∀ (n : Nat) (good : List Pull) (gchunks : List String) (cur : String) (req : Request)
      (sock : Socket) (done : List String) (base : List String),
      gchunks.length ≤ n →
      Mid req (.str cur) (good ++ tail) →
      good.map Pull.item = gchunks.map (fun c => some (PyObj.str c)) →
      sock.accepts_all →
      sock.passed = base ++ done →
      ∃ blocked final, send_until_done (n + 1 + extra) req sock = some (blocked, final)
        ∧ final.ret = true ∧ final.err = E
        ∧ final.sock.passed = base ++ (done ++ cur :: gchunks)
        ∧ ∀ t ∈ blocked, t.ret = false
          ∧ ((t.err = none ∧ ∃ written c rest, done ++ cur :: gchunks = written ++ c :: rest
                ∧ t.sock.passed = base ++ written
                ∧ t.req.response_curiter = some (.str c))
            ∨ (t.sock.passed = base ++ (done ++ cur :: gchunks) ∧ B t)) := by
  intro n
  induction n with
  | zero =>
    intro good gchunks cur req sock done base hn hmid hitems hacc hbase
    have hg : gchunks = [] := List.length_eq_zero.mp (Nat.le_zero.mp hn)
    subst hg
    have hflags := hmid.1
    rw [show 0 + 1 + extra = extra + 1 by omega, send_until_done_succ,
      wsgi_send_response_mid req sock _ _ hmid]
    simp only
    rcases senditer_loop_strings tail good [] cur 0 req sock hflags.1 hmid.2.2 hacc hitems
      with ⟨k, c, hk, hpos, _⟩ | ⟨sent2, sock2, ha2, hp2, hres⟩
    · have hk0 : 0 < k := hpos (by decide)
      cases k with
      | zero => exact absurd hk0 (Nat.lt_irrefl 0)
      | succ k => simp at hk
    · rw [hres]
      obtain ⟨blocked, final, hrun, hret, herr, hpassed, hblocked⟩ :=
        hfin sent2 { req with response := some (.iter tail) } sock2 hflags rfl ha2 extra
          (Nat.le_refl extra)
      refine ⟨blocked, final, hrun, hret, herr, ?_, ?_⟩
      · rw [hpassed, hp2, hbase, List.append_assoc]
      · intro t ht
        obtain ⟨h1, h2, h3⟩ := hblocked t ht
        exact ⟨h1, Or.inr ⟨by rw [h2, hp2, hbase, List.append_assoc], h3⟩⟩
  | succ m ih =>
    intro good gchunks cur req sock done base hn hmid hitems hacc hbase
    have hflags := hmid.1
    have hlen : good.length = gchunks.length := by
      have := congrArg List.length hitems
      simpa using this
    rw [show m + 1 + 1 + extra = (m + 1 + extra) + 1 by omega, send_until_done_succ,
      wsgi_send_response_mid req sock _ _ hmid]
    simp only
    rcases senditer_loop_strings tail good gchunks cur 0 req sock hflags.1 hmid.2.2 hacc hitems
      with ⟨k, c, hk, hpos, sock1, ha1, hp1, hres⟩ | ⟨sent2, sock2, ha2, hp2, hres⟩
    · have hk0 : 0 < k := hpos (by decide)
      obtain ⟨j, rfl⟩ : ∃ j, k = j + 1 := ⟨k - 1, by omega⟩
      simp only [List.getElem?_cons_succ] at hk
      have hjlt : j < gchunks.length := by
        rcases List.getElem?_eq_some.mp hk with ⟨h, _⟩
        exact h
      have hsplit := list_split_at gchunks j c hk
      have hwhole : done ++ cur :: gchunks
          = (done ++ cur :: gchunks.take j) ++ c :: gchunks.drop (j + 1) := by
        conv_lhs => rw [hsplit]
        simp
      have hmid2 : Mid { req with
            response := some (.iter ((good ++ tail).drop (j + 1)))
            response_curiter := some (.str c) } (.str c) (good.drop (j + 1) ++ tail) := by
        refine ⟨hflags, rfl, ?_⟩
        simp only
        rw [List.drop_append_of_le_length (by omega)]
      have hitems2 : (good.drop (j + 1)).map Pull.item
          = (gchunks.drop (j + 1)).map (fun c => some (PyObj.str c)) := by
        rw [List.map_drop, List.map_drop, hitems]
      have hbase2 : sock1.passed = base ++ (done ++ cur :: gchunks.take j) := by
        rw [hp1, hbase]
        simp
      have hcur2 : ({ req with
            response := some (.iter ((good ++ tail).drop (j + 1)))
            response_curiter := some (.str c) } : Request).response_curiter
          = some (.str c) := rfl
      generalize ({ req with
            response := some (.iter ((good ++ tail).drop (j + 1)))
            response_curiter := some (.str c) } : Request) = req2 at hmid2 hres hcur2
      obtain ⟨blocked, final, hrun, hret, herr, hpassed, hblocked⟩ :=
        ih (good.drop (j + 1)) (gchunks.drop (j + 1)) c req2 sock1
          (done ++ cur :: gchunks.take j) base
          (by simp only [List.length_drop]; omega) hmid2 hitems2 ha1 hbase2
      rw [hres]
      refine ⟨⟨false, req2, sock1, none⟩ :: blocked, final, ?_, hret, herr, ?_, ?_⟩
      · simp only [resume, Bool.false_eq_true, if_false, hrun]
      · rw [hpassed, ← hwhole]
      · intro t ht
        rcases List.mem_cons.mp ht with rfl | ht
        · exact ⟨rfl, Or.inl ⟨rfl, _, c, _, hwhole, hbase2, hcur2⟩⟩
        · have := hblocked t ht
          rw [← hwhole] at this
          exact this
    · rw [hres]
      obtain ⟨blocked, final, hrun, hret, herr, hpassed, hblocked⟩ :=
        hfin sent2 { req with response := some (.iter tail) } sock2 hflags rfl ha2
          (m + 1 + extra) (by omega)
      refine ⟨blocked, final, hrun, hret, herr, ?_, ?_⟩
      · rw [hpassed, hp2, hbase, List.append_assoc]
      · intro t ht
        obtain ⟨h1, h2, h3⟩ := hblocked t ht
        exact ⟨h1, Or.inr ⟨by rw [h2, hp2, hbase, List.append_assoc], h3⟩⟩

theorem list_map_split {α β : Type} (f : α → β) :
    ∀ (a : List β) (l : List α) (b : β) (c : List β), l.map f = a ++ b :: c →
      ∃ l1 x l2, l = l1 ++ x :: l2 ∧ l1.map f = a ∧ f x = b ∧ l2.map f = c := by
  intro a
  induction a with
  | nil =>
    intro l b c h
    cases l with
    | nil => simp at h
    | cons x rest =>
      simp only [List.map_cons, List.nil_append, List.cons.injEq] at h
      exact ⟨[], x, rest, rfl, rfl, h.1, h.2⟩
  | cons a0 a ih =>
    intro l b c h
    cases l with
    | nil => simp at h
    | cons x rest =>
      simp only [List.map_cons, List.cons_append, List.cons.injEq] at h
      obtain ⟨l1, y, l2, hl, h1, h2, h3⟩ := ih rest b c h.2
      exact ⟨x :: l1, y, l2, by rw [hl]; rfl, by simp [h.1, h1], h2, h3⟩

/-- The first call on a request whose headers are not yet sent, with a status
and headers that render and a writer that accepts every write: the headers
are written and the call goes on with the body as on the request with
HEADERS_SENT set. -/
theorem wsgi_send_response_first (req : Request) (sock : Socket) (s : String)
    (hs : List Header)
    (hsent : req.state.REQUEST_RESPONSE_HEADERS_SENT = false)
    (hstatus : req.status = some (.str s))
    (hheaders : req.response_headers = some (.list (hs.map Header.toPyObj)))
    (hfit : (spec_wire_format s hs).length ≤ BUFSIZE)
    (hacc : sock.accepts_all) :
    ∃ sock1 : Socket, sock1.accepts_all
      ∧ sock1.passed = sock.passed ++ [spec_wire_format s hs]
      ∧ wsgi_send_response req sock
        = wsgi_send_response
            { req with state := { req.state with REQUEST_RESPONSE_HEADERS_SENT := true } }
            sock1 := by
  obtain ⟨sock1, hw, hp, ha⟩ := sendall_accepts sock (spec_wire_format s hs) hacc
  refine ⟨sock1, ha, hp, ?_⟩
  have hh := wsgi_sendheaders_ok req sock s hs hstatus hheaders hfit
  rw [hw] at hh
  simp [wsgi_send_response, hsent, hh]

theorem send_until_done_first (fuel : Nat) (req : Request) (sock : Socket) (s : String)
    (hs : List Header)
    (hsent : req.state.REQUEST_RESPONSE_HEADERS_SENT = false)
    (hstatus : req.status = some (.str s))
    (hheaders : req.response_headers = some (.list (hs.map Header.toPyObj)))
    (hfit : (spec_wire_format s hs).length ≤ BUFSIZE)
    (hacc : sock.accepts_all) :
    ∃ sock1 : Socket, sock1.accepts_all
      ∧ sock1.passed = sock.passed ++ [spec_wire_format s hs]
      ∧ send_until_done (fuel + 1) req sock
        = send_until_done (fuel + 1)
            { req with state := { req.state with REQUEST_RESPONSE_HEADERS_SENT := true } }
            sock1 := by
  obtain ⟨sock1, ha, hp, hcall⟩ :=
    wsgi_send_response_first req sock s hs hsent hstatus hheaders hfit hacc
  exact ⟨sock1, ha, hp, by rw [send_until_done_succ, send_until_done_succ, hcall]⟩

/-- Claim C2. Take a request as `wsgi_call_application` leaves it for an
iterator payload: headers not yet sent, the iterator variant selected, a
string status and headers that render within the buffer, and `chunks` the
string chunks the payload has yet to deliver (the primed `response_curiter`
first, then what the iterator yields). On a writer that accepts every write,
calling `wsgi_send_response` until it returns `true` ends within
`chunks.length + 1` calls, without error; the writer has then been handed the
rendered headers once and after them every chunk once, in order; and every
call that returned `false` before had written a part `written` of the chunks
and left in `response_curiter` the chunk that follows `written`. -/
theorem send_until_done_streams_chunks (req : Request) (sock : Socket) (s : String)
    (hs : List Header) (chunks : List String) (pending : List Pull)
    (hsent : req.state.REQUEST_RESPONSE_HEADERS_SENT = false)
    (hstring : req.state.REQUEST_WSGI_STRING_RESPONSE = false)
    (hfile : req.state.REQUEST_WSGI_FILE_RESPONSE = false)
    (hiter : req.state.REQUEST_WSGI_ITER_RESPONSE = true)
    (hstatus : req.status = some (.str s))
    (hheaders : req.response_headers = some (.list (hs.map Header.toPyObj)))
    (hfit : (spec_wire_format s hs).length ≤ BUFSIZE)
    (hresp : req.response = some (.iter pending))
    (hitems : remaining_items req.response_curiter pending
      = chunks.map (fun c => some (PyObj.str c)))
    (hacc : sock.accepts_all) :
    ∃ blocked final, send_until_done (chunks.length + 1) req sock = some (blocked, final)
      ∧ final.ret = true ∧ final.err = none
      ∧ final.sock.passed = sock.passed ++ spec_wire_format s hs :: chunks
      ∧ ∀ t ∈ blocked, t.ret = false ∧ t.err = none
        ∧ ∃ written c rest, chunks = written ++ c :: rest
          ∧ t.sock.passed = sock.passed ++ spec_wire_format s hs :: written
          ∧ t.req.response_curiter = some (.str c) := by
  obtain ⟨sock1, ha1, hp1, hfirst⟩ :=
    send_until_done_first chunks.length req sock s hs hsent hstatus hheaders hfit hacc
  rw [hfirst]
  have hflags : IterFlags ({ req with
      state := { req.state with REQUEST_RESPONSE_HEADERS_SENT := true } } : Request).state :=
    ⟨rfl, hstring, hfile, hiter⟩
  cases chunks with
  | nil =>
    have hcur : req.response_curiter = none := by
      cases hc : req.response_curiter with
      | none => rfl
      | some cur => simp [remaining_items, hc] at hitems
    refine ⟨[], ⟨true, { req with
      state := { req.state with REQUEST_RESPONSE_HEADERS_SENT := true } }, sock1, none⟩,
      ?_, rfl, rfl, by simp [hp1], by simp⟩
    simp [send_until_done, wsgi_send_response, wsgi_send_body, wsgi_senditer, hstring, hfile,
      hiter, hcur]
  | cons c rest =>
    obtain ⟨hcur, hrest⟩ : req.response_curiter = some (.str c)
        ∧ pending.map Pull.item = rest.map (fun c => some (PyObj.str c)) := by
      cases hc : req.response_curiter with
      | none => simp [remaining_items, hc] at hitems
      | some cur =>
        simp only [remaining_items, hc, List.map_cons, List.cons.injEq,
          Option.some.injEq] at hitems
        exact ⟨by rw [hitems.1], hitems.2⟩
    have hmid : Mid ({ req with
        state := { req.state with REQUEST_RESPONSE_HEADERS_SENT := true } } : Request)
        (.str c) (pending ++ []) :=
      ⟨hflags, hcur, by simp [hresp]⟩
    have hfin : ∀ (sent2 : Nat) (req2 : Request) (sock2 : Socket),
        IterFlags req2.state → req2.response = some (.iter []) → sock2.accepts_all →
        ∀ fuel, 0 ≤ fuel →
        ∃ blocked final, resume fuel (senditer_pull [] sent2 req2 sock2) = some (blocked, final)
          ∧ final.ret = true ∧ final.err = none ∧ final.sock.passed = sock2.passed
          ∧ ∀ t ∈ blocked, t.ret = false ∧ t.sock.passed = sock2.passed ∧ False := by
      intro sent2 req2 sock2 _ _ _ fuel _
      exact ⟨[], ⟨true, { req2 with response := some (.iter []) }, sock2, none⟩,
        by simp [resume, senditer_pull], rfl, rfl, rfl, by simp⟩
    obtain ⟨blocked, final, hrun, hret, herr, hpassed, hblocked⟩ :=
      send_until_done_mid [] none (fun _ => False) 0 hfin (rest.length + 1) pending rest c _
        sock1 [] (sock.passed ++ [spec_wire_format s hs]) (Nat.le_succ _) hmid hrest ha1
        (by simp [hp1])
    refine ⟨blocked, final, ?_, hret, herr, by simp [hpassed], ?_⟩
    · rw [← hrun]
      rfl
    · intro t ht
      obtain ⟨h1, h2⟩ := hblocked t ht
      rcases h2 with ⟨he, written, c2, rest2, hw, hp, hc⟩ | ⟨_, hfalse⟩
      · exact ⟨h1, he, written, c2, rest2, by simpa using hw, by simp [hp], hc⟩
      · exact absurd hfalse id

/-- The request `wsgi_call_application` leaves, from a fresh request, for an
application that reports a string status with a list of headers and returns
an iterator over string chunks: the call succeeds and the request is as claim
C2 takes it, with all the chunks yet to deliver. -/
theorem wsgi_call_application_iter_ready (s : String) (headers : List PyObj)
    (chunks : List String) :
    ∃ pending,
      (wsgi_call_application
        ⟨[[.str s, .list headers]],
          .returns (.iter (chunks.map (fun c => Pull.yield [] (.str c))))⟩
        Request.fresh)
      = ⟨true,
          { state := ⟨true, false, false, false, true⟩
            status := some (.str s)
            response_headers := some (.list headers)
            response := some (.iter pending)
            response_curiter := (chunks.map (fun c => PyObj.str c)).head? }, none⟩
      ∧ remaining_items (chunks.map (fun c => PyObj.str c)).head? pending
        = chunks.map (fun c => some (PyObj.str c)) := by
  cases chunks with
  | nil => exact ⟨[], rfl, rfl⟩
  | cons c rest =>
    refine ⟨rest.map (fun c => Pull.yield [] (.str c)), rfl, ?_⟩
    simp [remaining_items, Pull.item, Function.comp_def]

/-- Claim C2 on the request left by an application that reports "200 OK" and
returns an iterator over the chunks "a", "b", "c". -/
theorem send_until_done_streams_chunks_witness :
    (spec_wire_format "200 OK" [("Content-Type", "text/plain", [])]).length ≤ BUFSIZE
    ∧ remaining_items abc_request.response_curiter [.yield [] (.str "b"), .yield [] (.str "c")]
      = ["a", "b", "c"].map (fun c => some (PyObj.str c))
    ∧ ∃ blocked final,
      send_until_done (["a", "b", "c"].length + 1) abc_request ⟨[], []⟩ = some (blocked, final)
      ∧ final.ret = true ∧ final.err = none
      ∧ final.sock.passed
        = [] ++ spec_wire_format "200 OK" [("Content-Type", "text/plain", [])]
          :: ["a", "b", "c"]
      ∧ ∀ t ∈ blocked, t.ret = false ∧ t.err = none
        ∧ ∃ written c rest, ["a", "b", "c"] = written ++ c :: rest
          ∧ t.sock.passed
            = [] ++ spec_wire_format "200 OK" [("Content-Type", "text/plain", [])] :: written
          ∧ t.req.response_curiter = some (.str c) :=
  ⟨by decide, rfl,
   send_until_done_streams_chunks abc_request ⟨[], []⟩ "200 OK"
     [("Content-Type", "text/plain", [])] ["a", "b", "c"]
     [.yield [] (.str "b"), .yield [] (.str "c")]
     rfl rfl rfl rfl rfl rfl (by decide) rfl rfl (by intro b hb; cases hb)⟩

theorem big_chunk_length : big_chunk.length = ITER_MAXSEND :=
  List.length_replicate _ _

/-- The budget at work: with a first chunk of `ITER_MAXSEND` bytes the first
call writes the headers and that chunk, returns `false` and leaves the chunk
"b" in `response_curiter`; the second call writes "b" and "c" and returns
`true`. -/
theorem send_until_done_budget_example :
    (send_until_done 4 (wsgi_call_application big_app Request.fresh).req ⟨[], []⟩).map
        (fun r => (r.1.map (fun t => (t.ret, t.sock.passed, t.req.response_curiter)),
          r.2.ret, r.2.sock.passed, r.2.err))
      = some
        ([(false, [spec_wire_format "200 OK" [("Content-Type", "text/plain", [])], big_chunk],
            some (.str "b"))],
          true,
          [spec_wire_format "200 OK" [("Content-Type", "text/plain", [])], big_chunk, "b", "c"],
          none) := by
  have hreq : (wsgi_call_application big_app Request.fresh).req
      = { state := ⟨true, false, false, false, true⟩
          status := some (.str "200 OK")
          response_headers := some (.list [.tuple [.str "Content-Type", .str "text/plain"]])
          response := some (.iter [.yield [] (.str "b"), .yield [] (.str "c")])
          response_curiter := some (.str big_chunk) } := rfl
  rw [hreq]
  have hh := wsgi_sendheaders_ok
    { state := ⟨true, false, false, false, true⟩
      status := some (.str "200 OK")
      response_headers := some (.list [.tuple [.str "Content-Type", .str "text/plain"]])
      response := some (.iter [.yield [] (.str "b"), .yield [] (.str "c")])
      response_curiter := some (.str big_chunk) } ⟨[], []⟩ "200 OK"
    [("Content-Type", "text/plain", [])] rfl rfl (by decide)
  have h0 : (0 : Nat) < ITER_MAXSEND := by decide
  have h1 : ¬ (0 + big_chunk.length < ITER_MAXSEND) := by
    rw [big_chunk_length]; decide
  have h2 : (0 + "b".length < ITER_MAXSEND) := by decide
  have c1 : wsgi_send_response
    { state := ⟨true, false, false, false, true⟩
      status := some (.str "200 OK")
      response_headers := some (.list [.tuple [.str "Content-Type", .str "text/plain"]])
      response := some (.iter [.yield [] (.str "b"), .yield [] (.str "c")])
      response_curiter := some (.str big_chunk) } ⟨[], []⟩ = .ok ⟨false,
    { state := ⟨true, true, false, false, true⟩
      status := some (.str "200 OK")
      response_headers := some (.list [.tuple [.str "Content-Type", .str "text/plain"]])
      response := some (.iter [.yield [] (.str "c")])
      response_curiter := some (.str "b") }, ⟨[spec_wire_format "200 OK" [("Content-Type", "text/plain", [])], big_chunk], []⟩, none⟩ := by
    simp only [wsgi_send_response, hh, sendall, wsgi_send_body, wsgi_senditer, Bool.not_true, Bool.not_false, if_true, if_false, Bool.false_eq_true, List.nil_append,
    List.cons_append, List.append_nil]
    rw [senditer_loop_write _ big_chunk 0 _
      ⟨[spec_wire_format "200 OK" [("Content-Type", "text/plain", [])]], []⟩
      ⟨[spec_wire_format "200 OK" [("Content-Type", "text/plain", [])], big_chunk], []⟩ h0 rfl]
    simp only [senditer_pull, run_calls]
    rw [senditer_loop_blocked _ _ _ _ _ h1]
  have c2 : wsgi_send_response
    { state := ⟨true, true, false, false, true⟩
      status := some (.str "200 OK")
      response_headers := some (.list [.tuple [.str "Content-Type", .str "text/plain"]])
      response := some (.iter [.yield [] (.str "c")])
      response_curiter := some (.str "b") }
    ⟨[spec_wire_format "200 OK" [("Content-Type", "text/plain", [])], big_chunk], []⟩
      = .ok ⟨true,
        { state := ⟨true, true, false, false, true⟩
          status := some (.str "200 OK")
          response_headers := some (.list [.tuple [.str "Content-Type", .str "text/plain"]])
          response := some (.iter [])
          response_curiter := some (.str "b") },
        ⟨[spec_wire_format "200 OK" [("Content-Type", "text/plain", [])], big_chunk, "b", "c"],
          []⟩, none⟩ := rfl
  simp only [send_until_done, c1, c2, Bool.false_eq_true, if_false, if_true, Option.map,
    List.map]

/-! ## A chunk that is not a string -/

/-- How the calls end once the loop pulls an item that is not a string: the
type check fails in this call when the budget allows another round, and in
the next call otherwise. -/
theorem resume_non_string (calls : List (List PyObj)) (bad : PyObj) (later : List Pull)
    (hbad : PyString_Check (some bad) = false)
    (sent2 : Nat) (req2 : Request) (sock2 : Socket)
    (hflags : IterFlags req2.state) (fuel : Nat) (hfuel : 1 ≤ fuel) :
    ∃ blocked final,
      resume fuel (senditer_pull (.yield calls bad :: later) sent2 req2 sock2)
        = some (blocked, final)
      ∧ final.ret = true ∧ final.err = some (.TypeCheck "wsgi iterable items")
      ∧ final.sock.passed = sock2.passed
      ∧ ∀ t ∈ blocked, t.ret = false ∧ t.sock.passed = sock2.passed ∧ t.err = none := by
  have hpull : senditer_pull (.yield calls bad :: later) sent2 req2 sock2
      = senditer_loop later bad sent2 { req2 with response := some (.iter later) } sock2 := by
    simp only [senditer_pull, run_calls_headers_sent calls req2 hflags.1]
  rw [hpull]
  by_cases hlt : sent2 < ITER_MAXSEND
  · rw [senditer_loop_not_string _ _ _ _ _ hlt hbad]
    exact ⟨[], ⟨true, { req2 with response := some (.iter later) }, sock2,
      some (.TypeCheck "wsgi iterable items")⟩, by simp [resume], rfl, rfl, rfl, by simp⟩
  · rw [senditer_loop_blocked _ _ _ _ _ hlt]
    obtain ⟨f, rfl⟩ : ∃ f, fuel = f + 1 := ⟨fuel - 1, by omega⟩
    have hmid : Mid ({ req2 with
        response := some (.iter later), response_curiter := some bad } : Request) bad later :=
      ⟨hflags, rfl, rfl⟩
    refine ⟨[⟨false, { req2 with
        response := some (.iter later), response_curiter := some bad }, sock2, none⟩],
      ⟨true, { req2 with
        response := some (.iter later), response_curiter := some bad }, sock2,
        some (.TypeCheck "wsgi iterable items")⟩, ?_, rfl, rfl, rfl, ?_⟩
    · simp only [resume, Bool.false_eq_true, if_false, send_until_done_succ]
      rw [wsgi_send_response_mid _ sock2 bad later hmid,
        senditer_loop_not_string _ _ _ _ _ (by decide) hbad]
      simp [resume]
    · intro t ht
      rw [List.mem_singleton] at ht
      subst ht
      exact ⟨rfl, rfl, rfl⟩

/-- Claim C8. Take a request as `wsgi_call_application` leaves it for an
iterator payload (headers not yet sent, a string status and headers that
render within the buffer) whose chunks yet to deliver are the strings `strs`
followed by an item `bad` that is not a string. On a writer that accepts
every write, calling `wsgi_send_response` until it returns `true` ends within
`strs.length + 1` calls, and the call that ends it fails with the TypeError of
the check on "wsgi iterable items"; the calls before it returned `false`
without error. The writer has then been handed the rendered headers and the
chunks `strs`, each once and in order, and nothing else; at every earlier
call it had been handed the headers and a leading part of `strs`. -/
theorem send_until_done_non_string_chunk (req : Request) (sock : Socket) (s : String)
    (hs : List Header) (strs : List String) (bad : PyObj) (more : List (Option PyObj))
    (pending : List Pull)
    (hsent : req.state.REQUEST_RESPONSE_HEADERS_SENT = false)
    (hstring : req.state.REQUEST_WSGI_STRING_RESPONSE = false)
    (hfile : req.state.REQUEST_WSGI_FILE_RESPONSE = false)
    (hiter : req.state.REQUEST_WSGI_ITER_RESPONSE = true)
    (hstatus : req.status = some (.str s))
    (hheaders : req.response_headers = some (.list (hs.map Header.toPyObj)))
    (hfit : (spec_wire_format s hs).length ≤ BUFSIZE)
    (hresp : req.response = some (.iter pending))
    (hitems : remaining_items req.response_curiter pending
      = strs.map (fun c => some (PyObj.str c)) ++ some bad :: more)
    (hbad : PyString_Check (some bad) = false)
    (hacc : sock.accepts_all) :
    ∃ blocked final, send_until_done (strs.length + 1) req sock = some (blocked, final)
      ∧ final.ret = true
      ∧ final.err = some (.TypeCheck "wsgi iterable items")
      ∧ final.sock.passed = sock.passed ++ spec_wire_format s hs :: strs
      ∧ ∀ t ∈ blocked, t.ret = false ∧ t.err = none
        ∧ ∃ written rest, strs = written ++ rest
          ∧ t.sock.passed = sock.passed ++ spec_wire_format s hs :: written := by
  obtain ⟨sock1, ha1, hp1, hfirst⟩ :=
    send_until_done_first strs.length req sock s hs hsent hstatus hheaders hfit hacc
  rw [hfirst]
  have hflags : IterFlags ({ req with
      state := { req.state with REQUEST_RESPONSE_HEADERS_SENT := true } } : Request).state :=
    ⟨rfl, hstring, hfile, hiter⟩
  cases strs with
  | nil =>
    have hcur : req.response_curiter = some bad := by
      cases hc : req.response_curiter with
      | none => simp [remaining_items, hc] at hitems
      | some cur =>
        simp only [remaining_items, hc, List.map_nil, List.nil_append, List.cons.injEq,
          Option.some.injEq] at hitems
        rw [hitems.1]
    have hmid : Mid ({ req with
        state := { req.state with REQUEST_RESPONSE_HEADERS_SENT := true } } : Request)
        bad pending := ⟨hflags, hcur, hresp⟩
    refine ⟨[], ⟨true, { req with
      state := { req.state with REQUEST_RESPONSE_HEADERS_SENT := true } }, sock1,
      some (.TypeCheck "wsgi iterable items")⟩, ?_, rfl, rfl, by simp [hp1], by simp⟩
    rw [List.length_nil, send_until_done_succ, wsgi_send_response_mid _ sock1 bad pending hmid,
      senditer_loop_not_string _ _ _ _ _ (by decide) hbad]
    simp [resume]
  | cons c gs =>
    obtain ⟨hcur, hrest⟩ : req.response_curiter = some (.str c)
        ∧ pending.map Pull.item = gs.map (fun c => some (PyObj.str c)) ++ some bad :: more := by
      cases hc : req.response_curiter with
      | none => simp [remaining_items, hc] at hitems
      | some cur =>
        simp only [remaining_items, hc, List.map_cons, List.cons_append, List.cons.injEq,
          Option.some.injEq] at hitems
        exact ⟨by rw [hitems.1], hitems.2⟩
    obtain ⟨good, p, later, hpending, hgood, hp, _⟩ := list_map_split Pull.item _ _ _ _ hrest
    obtain ⟨calls, rfl⟩ : ∃ calls, p = .yield calls bad := by
      cases p with
      | yield calls item =>
        simp only [Pull.item, Option.some.injEq] at hp
        exact ⟨calls, by rw [hp]⟩
      | raise calls exc => simp [Pull.item] at hp
    have hmid : Mid ({ req with
        state := { req.state with REQUEST_RESPONSE_HEADERS_SENT := true } } : Request)
        (.str c) (good ++ .yield calls bad :: later) :=
      ⟨hflags, hcur, by rw [← hpending]; exact hresp⟩
    have hfin : ∀ (sent2 : Nat) (req2 : Request) (sock2 : Socket),
        IterFlags req2.state → req2.response = some (.iter (.yield calls bad :: later)) →
        sock2.accepts_all → ∀ fuel, 1 ≤ fuel →
        ∃ blocked final,
          resume fuel (senditer_pull (.yield calls bad :: later) sent2 req2 sock2)
            = some (blocked, final)
          ∧ final.ret = true ∧ final.err = some (.TypeCheck "wsgi iterable items")
          ∧ final.sock.passed = sock2.passed
          ∧ ∀ t ∈ blocked, t.ret = false ∧ t.sock.passed = sock2.passed ∧ t.err = none := by
      intro sent2 req2 sock2 hf _ _ fuel hfuel
      exact resume_non_string calls bad later hbad sent2 req2 sock2 hf fuel hfuel
    obtain ⟨blocked, final, hrun, hret, herr, hpassed, hblocked⟩ :=
      send_until_done_mid (.yield calls bad :: later) (some (.TypeCheck "wsgi iterable items"))
        (fun t => t.err = none) 1 hfin gs.length good gs c _
        sock1 [] (sock.passed ++ [spec_wire_format s hs]) (Nat.le_refl _) hmid hgood ha1
        (by simp [hp1])
    refine ⟨blocked, final, ?_, hret, herr, by simp [hpassed], ?_⟩
    · rw [← hrun]
      rfl
    · intro t ht
      obtain ⟨h1, h2⟩ := hblocked t ht
      rcases h2 with ⟨he, written, c2, rest2, hw, hp, _⟩ | ⟨hp, he⟩
      · exact ⟨h1, he, written, c2 :: rest2, by simpa using hw, by simp [hp]⟩
      · exact ⟨h1, he, c :: gs, [], by simp, by simpa using hp⟩

/-- Claim C8 on the request left by an application that reports "200 OK" and
returns an iterator over "a", 42, "c": the chunk at position 1 is not a
string. -/
theorem send_until_done_non_string_chunk_witness :
    remaining_items bad_chunk_request.response_curiter
        [.yield [] (.int 42), .yield [] (.str "c")]
      = ["a"].map (fun c => some (PyObj.str c)) ++ some (.int 42) :: [some (.str "c")]
    ∧ PyString_Check (some (.int 42)) = false
    ∧ ∃ blocked final,
      send_until_done (["a"].length + 1) bad_chunk_request ⟨[], []⟩ = some (blocked, final)
      ∧ final.ret = true
      ∧ final.err = some (.TypeCheck "wsgi iterable items")
      ∧ final.sock.passed = [] ++ spec_wire_format "200 OK" [] :: ["a"]
      ∧ ∀ t ∈ blocked, t.ret = false ∧ t.err = none
        ∧ ∃ written rest, ["a"] = written ++ rest
          ∧ t.sock.passed = [] ++ spec_wire_format "200 OK" [] :: written :=
  ⟨rfl, rfl,
   send_until_done_non_string_chunk bad_chunk_request ⟨[], []⟩ "200 OK" [] ["a"] (.int 42)
     [some (.str "c")] [.yield [] (.int 42), .yield [] (.str "c")]
     rfl rfl rfl rfl rfl rfl (by decide) rfl rfl rfl (by intro b hb; cases hb)⟩

/-! ## The byte budget of a turn -/

/-- The ways a round of the loop can go. -/
theorem senditer_round_cases (cur : PyObj) (sent : Nat) (req : Request) (sock : Socket) :
    (¬ sent < ITER_MAXSEND
      ∧ senditer_round cur sent req sock
        = .done ⟨false, { req with response_curiter := some cur }, sock, none⟩)
    ∨ (sent < ITER_MAXSEND ∧ PyString_Check (some cur) = false
      ∧ senditer_round cur sent req sock
        = .done ⟨true, req, sock, some (.TypeCheck "wsgi iterable items")⟩)
    ∨ (∃ s sock1, sent < ITER_MAXSEND ∧ cur = .str s ∧ sendall sock s = (false, sock1)
      ∧ senditer_round cur sent req sock = .done ⟨true, req, sock1, none⟩)
    ∨ (∃ s sock1, sent < ITER_MAXSEND ∧ cur = .str s ∧ sendall sock s = (true, sock1)
      ∧ senditer_round cur sent req sock = .pull (sent + s.length) sock1) := by
  by_cases hlt : sent < ITER_MAXSEND
  · cases cur with
    | str s =>
      rcases hw : sendall sock s with ⟨b, sock1⟩
      cases b with
      | false =>
        right; right; left
        exact ⟨s, sock1, hlt, rfl, hw, by simp [senditer_round, hlt, hw]⟩
      | true =>
        right; right; right
        exact ⟨s, sock1, hlt, rfl, hw, by simp [senditer_round, hlt, hw]⟩
    | _ =>
      right; left
      exact ⟨hlt, rfl, by simp [senditer_round, hlt]⟩
  · left
    exact ⟨hlt, by simp [senditer_round, hlt]⟩

theorem sendall_passed_of_eq (sock sock1 : Socket) (s : String) (b : Bool)
    (h : sendall sock s = (b, sock1)) : sock1.passed = sock.passed ++ [s] := by
  have := sendall_passed sock s
  rw [h] at this
  exact this

/-- One call of the loop, for any iterator, any chunks and any writer: the
buffers `ws` it hands to `sendall`, each handed over while the lengths of
those before it (in this call, on top of `sent`) stay below `ITER_MAXSEND`;
when it returns `false` the budget is used up and a chunk is left in
`response_curiter`; the state flags are untouched. -/
theorem senditer_loop_budget (pending : List Pull) :
    ∀ (cur : PyObj) (sent : Nat) (req : Request) (sock : Socket),
      ∃ ws : List String,
        (senditer_loop pending cur sent req sock).sock.passed = sock.passed ++ ws
        ∧ (∀ pre w post, ws = pre ++ w :: post → sent + total_bytes pre < ITER_MAXSEND)
        ∧ ((senditer_loop pending cur sent req sock).ret = false →
            ITER_MAXSEND ≤ sent + total_bytes ws
            ∧ ∃ c, (senditer_loop pending cur sent req sock).req.response_curiter = some c)
        ∧ (senditer_loop pending cur sent req sock).req.state = req.state := by
  induction pending with
  | nil =>
    intro cur sent req sock
    rw [senditer_loop_round]
    rcases senditer_round_cases cur sent req sock with
      ⟨hlt, hr⟩ | ⟨_, _, hr⟩ | ⟨s, sock1, hlt, _, hw, hr⟩ | ⟨s, sock1, hlt, _, hw, hr⟩
    · rw [hr]
      refine ⟨[], by simp, ?_, ?_, rfl⟩
      · intro pre w post h; simp at h
      · intro _; exact ⟨by simp [total_bytes]; omega, cur, rfl⟩
    · rw [hr]
      refine ⟨[], by simp, ?_, ?_, rfl⟩
      · intro pre w post h; simp at h
      · intro h; simp at h
    · rw [hr]
      refine ⟨[s], sendall_passed_of_eq _ _ _ _ hw, ?_, ?_, rfl⟩
      · intro pre w post h
        cases pre with
        | nil => simpa [total_bytes] using hlt
        | cons a pre2 => simp at h
      · intro h; simp at h
    · rw [hr]
      refine ⟨[s], sendall_passed_of_eq _ _ _ _ hw, ?_, ?_, rfl⟩
      · intro pre w post h
        cases pre with
        | nil => simpa [total_bytes] using hlt
        | cons a pre2 => simp at h
      · intro h; simp [senditer_pull] at h
  | cons p rest ih =>
    intro cur sent req sock
    rw [senditer_loop_round]
    rcases senditer_round_cases cur sent req sock with
      ⟨hlt, hr⟩ | ⟨_, _, hr⟩ | ⟨s, sock1, hlt, _, hw, hr⟩ | ⟨s, sock1, hlt, _, hw, hr⟩
    · rw [hr]
      refine ⟨[], by simp, ?_, ?_, rfl⟩
      · intro pre w post h; simp at h
      · intro _; exact ⟨by simp [total_bytes]; omega, cur, rfl⟩
    · rw [hr]
      refine ⟨[], by simp, ?_, ?_, rfl⟩
      · intro pre w post h; simp at h
      · intro h; simp at h
    · rw [hr]
      refine ⟨[s], sendall_passed_of_eq _ _ _ _ hw, ?_, ?_, rfl⟩
      · intro pre w post h
        cases pre with
        | nil => simpa [total_bytes] using hlt
        | cons a pre2 => simp at h
      · intro h; simp at h
    · rw [hr]
      have hp1 := sendall_passed_of_eq _ _ _ _ hw
      cases p with
      | yield calls item =>
        simp only [senditer_pull]
        obtain ⟨ws, hpassed, hpre, hblock, hstate⟩ :=
          ih item (sent + s.length)
            { run_calls req calls with response := some (.iter rest) } sock1
        refine ⟨s :: ws, ?_, ?_, ?_, ?_⟩
        · rw [hpassed, hp1]; simp
        · intro pre w post h
          cases pre with
          | nil => simpa [total_bytes] using hlt
          | cons a pre2 =>
            simp only [List.cons_append, List.cons.injEq] at h
            have := hpre pre2 w post h.2
            rw [← h.1]
            simp only [total_bytes, List.map_cons, List.sum_cons] at this ⊢
            omega
        · intro h
          obtain ⟨h1, h2⟩ := hblock h
          refine ⟨?_, h2⟩
          simp only [total_bytes, List.map_cons, List.sum_cons] at h1 ⊢
          omega
        · rw [hstate]
          exact run_calls_state calls req
      | raise calls exc =>
        simp only [senditer_pull]
        refine ⟨[s], hp1, ?_, ?_, run_calls_state calls req⟩
        · intro pre w post h
          cases pre with
          | nil => simpa [total_bytes] using hlt
          | cons a pre2 => simp at h
        · intro h; simp at h

/-- Claim C17. In one call of `wsgi_senditer` that returns, with any iterator
and any writer, let `ws` be the buffers handed to `sendall`, in order. Each
of them is handed over only while the bytes of those before it total less
than `ITER_MAXSEND` = 4096; hence the bytes of `ws` total less than 4096 plus
the length of the last one; and the call returns `false` only when the bytes
of `ws` total at least 4096 and a further chunk is left in
`response_curiter`. -/
theorem wsgi_senditer_budget (req : Request) (sock : Socket) (r : Sent)
    (h : wsgi_senditer req sock = .ok r) :
    ITER_MAXSEND = 4096
    ∧ ∃ ws : List String, r.sock.passed = sock.passed ++ ws
      ∧ (∀ pre w post, ws = pre ++ w :: post → total_bytes pre < ITER_MAXSEND)
      ∧ (∀ init last, ws = init ++ [last] → total_bytes ws < ITER_MAXSEND + last.length)
      ∧ (r.ret = false →
          ITER_MAXSEND ≤ total_bytes ws ∧ ∃ c, r.req.response_curiter = some c) := by
  refine ⟨rfl, ?_⟩
  have key : ∃ ws : List String, r.sock.passed = sock.passed ++ ws
      ∧ (∀ pre w post, ws = pre ++ w :: post → total_bytes pre < ITER_MAXSEND)
      ∧ (r.ret = false →
          ITER_MAXSEND ≤ total_bytes ws ∧ ∃ c, r.req.response_curiter = some c) := by
    unfold wsgi_senditer at h
    split at h
    · cases h
      exact ⟨[], by simp, by intro pre w post h; simp at h, by intro h; simp at h⟩
    · rename_i cur hcur
      split at h
      · rename_i pending hresp
        cases h
        obtain ⟨ws, h1, h2, h3, _⟩ := senditer_loop_budget pending cur 0 req sock
        exact ⟨ws, h1, fun pre w post e => by simpa using h2 pre w post e,
          fun e => by simpa using h3 e⟩
      · split at h
        · rename_i s
          split at h
          · rename_i sock1 hw
            cases h
            refine ⟨[s], sendall_passed_of_eq _ _ _ _ hw, ?_, by intro h; simp at h⟩
            intro pre w post h
            cases pre with
            | nil => simp [total_bytes, ITER_MAXSEND]
            | cons a pre2 => simp at h
          · cases h
        · cases h
          exact ⟨[], by simp, by intro pre w post h; simp at h, by intro h; simp at h⟩
  obtain ⟨ws, h1, h2, h3⟩ := key
  refine ⟨ws, h1, h2, ?_, h3⟩
  intro init last hl
  have := h2 init last [] hl
  rw [hl]
  simp only [total_bytes, List.map_append, List.map_cons, List.map_nil, List.sum_append,
    List.sum_cons, List.sum_nil] at this ⊢
  omega

theorem wsgi_senditer_big :
    wsgi_senditer big_request ⟨[], []⟩
      = .ok ⟨false,
          { state := ⟨true, false, false, false, true⟩
            status := some (.str "200 OK")
            response_headers := some (.list
              [.tuple [.str "Content-Type", .str "text/plain"]])
            response := some (.iter [.yield [] (.str "c")])
            response_curiter := some (.str "b") },
          ⟨[big_chunk], []⟩, none⟩ := by
  have hreq : big_request
      = { state := ⟨true, false, false, false, true⟩
          status := some (.str "200 OK")
          response_headers := some (.list [.tuple [.str "Content-Type", .str "text/plain"]])
          response := some (.iter [.yield [] (.str "b"), .yield [] (.str "c")])
          response_curiter := some (.str big_chunk) } := rfl
  have h0 : (0 : Nat) < ITER_MAXSEND := by decide
  have h1 : ¬ (0 + big_chunk.length < ITER_MAXSEND) := by
    rw [big_chunk_length]; decide
  rw [hreq]
  simp only [wsgi_senditer]
  rw [senditer_loop_write _ big_chunk 0 _ ⟨[], []⟩ ⟨[big_chunk], []⟩ h0 rfl]
  simp only [senditer_pull, run_calls]
  rw [senditer_loop_blocked _ _ _ _ _ h1]

/-- Claim C17 on a turn that writes one chunk of 4096 bytes and then stops for
the budget, with the chunk "b" left in `response_curiter`. -/
theorem wsgi_senditer_budget_witness :
    wsgi_senditer big_request ⟨[], []⟩
      = .ok ⟨false,
          { state := ⟨true, false, false, false, true⟩
            status := some (.str "200 OK")
            response_headers := some (.list
              [.tuple [.str "Content-Type", .str "text/plain"]])
            response := some (.iter [.yield [] (.str "c")])
            response_curiter := some (.str "b") },
          ⟨[big_chunk], []⟩, none⟩
    ∧ ITER_MAXSEND = 4096
    ∧ ∃ ws : List String, [big_chunk] = [] ++ ws
      ∧ (∀ pre w post, ws = pre ++ w :: post → total_bytes pre < ITER_MAXSEND)
      ∧ (∀ init last, ws = init ++ [last] → total_bytes ws < ITER_MAXSEND + last.length)
      ∧ (false = false →
          ITER_MAXSEND ≤ total_bytes ws ∧ ∃ c, some (PyObj.str "b") = some c) :=
  ⟨wsgi_senditer_big, wsgi_senditer_budget big_request ⟨[], []⟩ _ wsgi_senditer_big⟩

/-! ## Refused writes -/

/-- Claim C13 as stated fails: in the middle of an iterator response over "a",
"b", "c", with a writer that accepts "a" and refuses "b", the call returns
`true` (done) and not `false` (would_block), and `response_curiter` still
holds "a", not the refused chunk "b", which the iterator has already given
out. -/
theorem wsgi_senditer_refused_counterexample :
    (sendall ⟨["a"], [false]⟩ "b").1 = false
    ∧ wsgi_send_response mid_request ⟨[], [true, false]⟩
      = .ok ⟨true,
          { mid_request with response := some (.iter [.yield [] (.str "c")]) },
          ⟨["a", "b"], []⟩, none⟩
    ∧ ¬ ∃ r, wsgi_send_response mid_request ⟨[], [true, false]⟩ = .ok r
        ∧ r.ret = false ∧ r.req.response_curiter = some (.str "b") := by
  have h : wsgi_send_response mid_request ⟨[], [true, false]⟩
      = .ok ⟨true,
          { mid_request with response := some (.iter [.yield [] (.str "c")]) },
          ⟨["a", "b"], []⟩, none⟩ := rfl
  refine ⟨rfl, h, ?_⟩
  rintro ⟨r, hr, hret, _⟩
  rw [h] at hr
  cases hr
  simp at hret

/-- Claim C13, amended. When the loop of `wsgi_senditer` is about to write the
string chunk `s` (the budget allows the round) and `sendall` refuses it, the
function returns `true`, the terminal result, with no error: the refused
chunk is the last buffer handed to the writer, no further item is pulled, and
the request is left as the round found it, `response_curiter` included. For
a request in the middle of an iterator response whose current chunk is
refused, this is the result of `wsgi_send_response`. -/
theorem wsgi_senditer_refused_write (pending : List Pull) (s : String) (sent : Nat)
    (req : Request) (sock sock1 : Socket)
    (hlt : sent < ITER_MAXSEND)
    (hw : sendall sock s = (false, sock1)) :
    senditer_loop pending (.str s) sent req sock = ⟨true, req, sock1, none⟩
    ∧ sock1.passed = sock.passed ++ [s]
    ∧ (Mid req (.str s) pending →
        wsgi_send_response req sock = .ok ⟨true, req, sock1, none⟩) := by
  have hloop : ∀ n, n < ITER_MAXSEND →
      senditer_loop pending (.str s) n req sock = ⟨true, req, sock1, none⟩ := by
    intro n hn
    rw [senditer_loop_round]
    simp [senditer_round, hn, hw]
  refine ⟨hloop sent hlt, sendall_passed_of_eq _ _ _ _ hw, ?_⟩
  intro hmid
  rw [wsgi_send_response_mid req sock _ _ hmid, hloop 0 (by decide)]

/-- Claim C13, amended, on a writer that refuses the current chunk "a" of a
request in the middle of an iterator response. -/
theorem wsgi_senditer_refused_write_witness :
    (0 : Nat) < ITER_MAXSEND
    ∧ sendall ⟨[], [false]⟩ "a" = (false, ⟨["a"], []⟩)
    ∧ Mid mid_request (.str "a") [.yield [] (.str "b"), .yield [] (.str "c")]
    ∧ senditer_loop [.yield [] (.str "b"), .yield [] (.str "c")] (.str "a") 0 mid_request
        ⟨[], [false]⟩ = ⟨true, mid_request, ⟨["a"], []⟩, none⟩
    ∧ (⟨["a"], []⟩ : Socket).passed = (⟨[], [false]⟩ : Socket).passed ++ ["a"]
    ∧ wsgi_send_response mid_request ⟨[], [false]⟩
        = .ok ⟨true, mid_request, ⟨["a"], []⟩, none⟩ :=
  have h := wsgi_senditer_refused_write [.yield [] (.str "b"), .yield [] (.str "c")] "a" 0
    mid_request ⟨[], [false]⟩ ⟨["a"], []⟩ (by decide) rfl
  ⟨by decide, rfl, ⟨⟨rfl, rfl, rfl, rfl⟩, rfl, rfl⟩, h.1, h.2.1,
    h.2.2 ⟨⟨rfl, rfl, rfl, rfl⟩, rfl, rfl⟩⟩

/-- Claim C18. On a request whose headers are not yet sent, with a string
status and headers that render within the buffer, when `sendall` does not
accept the header buffer, `wsgi_send_response` returns `true`, the terminal
result, at once: the request is unchanged, so HEADERS_SENT is still unset,
and the header buffer is the only thing handed to the writer in that call,
whatever the payload variant. -/
theorem wsgi_send_response_short_header_write (req : Request) (sock : Socket) (s : String)
    (hs : List Header)
    (hsent : req.state.REQUEST_RESPONSE_HEADERS_SENT = false)
    (hstatus : req.status = some (.str s))
    (hheaders : req.response_headers = some (.list (hs.map Header.toPyObj)))
    (hfit : (spec_wire_format s hs).length ≤ BUFSIZE)
    (hrefused : (sendall sock (spec_wire_format s hs)).1 = false) :
    wsgi_send_response req sock
      = .ok ⟨true, req, (sendall sock (spec_wire_format s hs)).2, none⟩
    ∧ (sendall sock (spec_wire_format s hs)).2.passed
      = sock.passed ++ [spec_wire_format s hs] := by
  have hh := wsgi_sendheaders_ok req sock s hs hstatus hheaders hfit
  rw [hrefused] at hh
  refine ⟨?_, sendall_passed sock _⟩
  simp [wsgi_send_response, hsent, hh]

/-- Claim C18 on the request left by `abc_app`, with a writer that refuses the
first write. -/
theorem wsgi_send_response_short_header_write_witness :
    (spec_wire_format "200 OK" [("Content-Type", "text/plain", [])]).length ≤ BUFSIZE
    ∧ (sendall ⟨[], [false]⟩
        (spec_wire_format "200 OK" [("Content-Type", "text/plain", [])])).1 = false
    ∧ wsgi_send_response abc_request ⟨[], [false]⟩
      = .ok ⟨true, abc_request,
          (sendall ⟨[], [false]⟩
            (spec_wire_format "200 OK" [("Content-Type", "text/plain", [])])).2, none⟩
    ∧ (sendall ⟨[], [false]⟩
        (spec_wire_format "200 OK" [("Content-Type", "text/plain", [])])).2.passed
      = [] ++ [spec_wire_format "200 OK" [("Content-Type", "text/plain", [])]] :=
  ⟨by decide, rfl,
   wsgi_send_response_short_header_write abc_request ⟨[], [false]⟩ "200 OK"
     [("Content-Type", "text/plain", [])] rfl rfl rfl (by decide) rfl⟩

/-! ## After the iterator is exhausted -/

/-- Claim C15 fails on the code. For the application that reports "200 OK"
and returns `[42]`, `wsgi_call_application` succeeds with
REQUEST_WSGI_STRING_RESPONSE set, REQUEST_WSGI_ITER_RESPONSE unset and the
integer 42 stored as the response; `wsgi_send_response` then writes the
headers and reads the integer through `PyString_AS_STRING`. -/
theorem wsgi_call_application_list_of_int :
    (wsgi_call_application list_of_int_app Request.fresh).ok = true
    ∧ (wsgi_call_application list_of_int_app
        Request.fresh).req.state.REQUEST_WSGI_STRING_RESPONSE = true
    ∧ (wsgi_call_application list_of_int_app
        Request.fresh).req.state.REQUEST_WSGI_ITER_RESPONSE = false
    ∧ (wsgi_call_application list_of_int_app Request.fresh).req.response = some (.int 42)
    ∧ PyString_Check (wsgi_call_application list_of_int_app Request.fresh).req.response
      = false
    ∧ wsgi_send_response (wsgi_call_application list_of_int_app Request.fresh).req ⟨[], []⟩
      = .error (.bad_access "PyString_AS_STRING (request->response)") :=
  ⟨rfl, rfl, rfl, rfl, rfl, rfl⟩

/-! ## Priming -/

/-- Claim C16. On a request whose headers are neither sent nor reported, an
application that makes no `start_response` call and returns an iterator whose
first `next()` calls `start_response (s, hs)` with a string `s` and a list
`hs` and then yields `c0`: `wsgi_call_application` succeeds, with
REQUEST_WSGI_ITER_RESPONSE set, the reported status and headers stored, `c0`
in `response_curiter` and the rest of the iterator as the response. An
exhausted iterator leaves `response_curiter` `NULL`; and when the first
`next()` raises, the call fails with the raised error. -/
theorem wsgi_call_application_priming (req : Request) (s : String) (hs : List PyObj)
    (c0 : PyObj) (rest : List Pull)
    (hsent : req.state.REQUEST_RESPONSE_HEADERS_SENT = false)
    (hunset : req.response_headers = none) :
    (wsgi_call_application ⟨[], .returns (.iter (.yield [[.str s, .list hs]] c0 :: rest))⟩
        req)
      = ⟨true,
          { state := { req.state with
              REQUEST_RESPONSE_WSGI := true, REQUEST_WSGI_ITER_RESPONSE := true }
            status := some (.str s)
            response_headers := some (.list hs)
            response := some (.iter rest)
            response_curiter := some c0 }, none⟩
    ∧ (∀ calls, (wsgi_call_application ⟨calls, .returns (.iter [])⟩
        req).req.response_curiter = none)
    ∧ (∀ calls pcalls exc rest2,
        (wsgi_call_application ⟨calls, .returns (.iter (.raise pcalls exc :: rest2))⟩
          req).ok = false
        ∧ (wsgi_call_application ⟨calls, .returns (.iter (.raise pcalls exc :: rest2))⟩
          req).err = some (.Raised exc)) := by
  refine ⟨?_, ?_, ?_⟩
  · simp [wsgi_call_application, run_calls, PyFile_Check, PyString_Check, PyObject_GetIter,
      PyIter_Next, start_response, hsent, hunset, PyArg_UnpackTuple, PyList_Check,
      wsgi_call_application_out]
  · intro calls
    simp only [wsgi_call_application, PyFile_Check, PyString_Check, PyObject_GetIter,
      PyIter_Next, wsgi_call_application_out]
    simp only [Bool.false_eq_true, if_false]
    split <;> rfl
  · intro calls pcalls exc rest2
    simp [wsgi_call_application, PyFile_Check, PyString_Check, PyObject_GetIter, PyIter_Next]

/-- Claim C16 on a fresh request and the generator
`start_response ("200 Ok", []); yield "Hello World"`. -/
theorem wsgi_call_application_priming_witness :
    (wsgi_call_application
        ⟨[], .returns (.iter (.yield [[.str "200 Ok", .list []]] (.str "Hello World") :: []))⟩
        Request.fresh)
      = ⟨true,
          { state := { Request.fresh.state with
              REQUEST_RESPONSE_WSGI := true, REQUEST_WSGI_ITER_RESPONSE := true }
            status := some (.str "200 Ok")
            response_headers := some (.list [])
            response := some (.iter [])
            response_curiter := some (.str "Hello World") }, none⟩
    ∧ (∀ calls, (wsgi_call_application ⟨calls, .returns (.iter [])⟩
        Request.fresh).req.response_curiter = none)
    ∧ (∀ calls pcalls exc rest2,
        (wsgi_call_application ⟨calls, .returns (.iter (.raise pcalls exc :: rest2))⟩
          Request.fresh).ok = false
        ∧ (wsgi_call_application ⟨calls, .returns (.iter (.raise pcalls exc :: rest2))⟩
          Request.fresh).err = some (.Raised exc)) :=
  wsgi_call_application_priming Request.fresh "200 Ok" [] (.str "Hello World") [] rfl rfl

/-! ## Later calls of `start_response` -/

/-- Claim C12. On a later call of `start_response` (`response_headers` set,
headers not yet sent) with a string status, a list of headers and possibly a
third argument `exc`: the call fails, returning `NULL` with a TypeError, if
and only if `exc` is absent, is not a tuple, or is a tuple whose length is
not 3; and when `exc` is the tuple `(t, v, tb)` the call returns `None` with
the error restored from `(t, v, tb)` pending. -/
theorem start_response_later_call (req : Request) (s : String) (hs : List PyObj)
    (exc : Option PyObj)
    (hsent : req.state.REQUEST_RESPONSE_HEADERS_SENT = false)
    (hset : req.response_headers ≠ none) :
    (((start_response req (.str s :: .list hs :: exc.toList)).ret = none
        ∧ ∃ e, (start_response req (.str s :: .list hs :: exc.toList)).err = some e
          ∧ e.isTypeError = true)
      ↔ (exc = none
        ∨ (∃ x, exc = some x ∧ PyTuple_Check (some x) = false)
        ∨ ∃ items, exc = some (.tuple items) ∧ items.length ≠ 3))
    ∧ ∀ t v tb, exc = some (.tuple [t, v, tb]) →
        (start_response req (.str s :: .list hs :: exc.toList)).ret = some .none
        ∧ (start_response req (.str s :: .list hs :: exc.toList)).err
          = some (.Restored t v tb) := by
  have hnone : req.response_headers.isNone = false := by
    cases h : req.response_headers with
    | none => exact absurd h hset
    | some _ => rfl
  constructor
  · cases exc with
    | none =>
      simp [start_response, hsent, hnone, PyArg_UnpackTuple, PyErr.isTypeError]
    | some x =>
      cases x with
      | tuple items =>
        match items with
        | [] =>
          simp [start_response, hsent, hnone, PyArg_UnpackTuple, PyErr.isTypeError,
            PyTuple_Check]
        | [_] =>
          simp [start_response, hsent, hnone, PyArg_UnpackTuple, PyErr.isTypeError,
            PyTuple_Check]
        | [_, _] =>
          simp [start_response, hsent, hnone, PyArg_UnpackTuple, PyErr.isTypeError,
            PyTuple_Check]
        | [_, _, _] =>
          simp [start_response, hsent, hnone, PyArg_UnpackTuple, PyErr.isTypeError,
            PyTuple_Check, PyString_Check, PyList_Check]
        | _ :: _ :: _ :: _ :: _ =>
          simp [start_response, hsent, hnone, PyArg_UnpackTuple, PyErr.isTypeError,
            PyTuple_Check]
      | _ =>
        simp [start_response, hsent, hnone, PyArg_UnpackTuple, PyErr.isTypeError,
          PyTuple_Check]
  · intro t v tb he
    subst he
    simp [start_response, hsent, hnone, PyArg_UnpackTuple, PyString_Check, PyList_Check]

/-- Claim C12 on a request that holds "200 OK", called again with "500 Oops"
and no third argument. -/
theorem start_response_later_call_witness :
    (((start_response
          { Request.fresh with
            status := some (.str "200 OK"), response_headers := some (.list []) }
          (.str "500 Oops" :: .list [] :: (none : Option PyObj).toList)).ret = none
        ∧ ∃ e, (start_response
          { Request.fresh with
            status := some (.str "200 OK"), response_headers := some (.list []) }
          (.str "500 Oops" :: .list [] :: (none : Option PyObj).toList)).err = some e
          ∧ e.isTypeError = true)
      ↔ ((none : Option PyObj) = none
        ∨ (∃ x, (none : Option PyObj) = some x ∧ PyTuple_Check (some x) = false)
        ∨ ∃ items, (none : Option PyObj) = some (.tuple items) ∧ items.length ≠ 3))
    ∧ ∀ t v tb, (none : Option PyObj) = some (.tuple [t, v, tb]) →
        (start_response
          { Request.fresh with
            status := some (.str "200 OK"), response_headers := some (.list []) }
          (.str "500 Oops" :: .list [] :: (none : Option PyObj).toList)).ret = some .none
        ∧ (start_response
          { Request.fresh with
            status := some (.str "200 OK"), response_headers := some (.list []) }
          (.str "500 Oops" :: .list [] :: (none : Option PyObj).toList)).err
          = some (.Restored t v tb) :=
  start_response_later_call
    { Request.fresh with
      status := some (.str "200 OK"), response_headers := some (.list []) }
    "500 Oops" [] none rfl (by simp)

/-! ## The shape flags -/

theorem wsgi_call_application_out_req (r : Request) :
    (wsgi_call_application_out r).req = r := by
  unfold wsgi_call_application_out
  split <;> rfl

theorem wsgi_call_application_out_ok_iff (r : Request) :
    (wsgi_call_application_out r).ok = r.response_headers.isSome := by
  unfold wsgi_call_application_out
  cases r.response_headers <;> rfl

theorem PyObject_GetIter_some (retval it : PyObj) (h : PyObject_GetIter retval = some it) :
    ∃ pending, it = .iter pending := by
  cases retval <;> simp [PyObject_GetIter] at h <;> exact ⟨_, h.symm⟩

theorem PyIter_Next_iter (pending : List Pull) (req : Request) :
    ∃ p, PyIter_Next (.iter pending) req = some p ∧ p.req.state = req.state := by
  cases pending with
  | nil => exact ⟨_, rfl, rfl⟩
  | cons q rest =>
    cases q with
    | yield calls item => exact ⟨_, rfl, run_calls_state calls req⟩
    | raise calls exc => exact ⟨_, rfl, run_calls_state calls req⟩

/-- The application call for a return value that is not a list of one
element: the tests that follow the fast path. -/
theorem wsgi_call_application_not_fast (app : App) (req : Request) (retval : PyObj)
    (hret : app.outcome = .returns retval) (hnl : ∀ x, retval ≠ .list [x]) :
    wsgi_call_application app req
      = if PyFile_Check retval then
          wsgi_call_application_out
            { run_calls req app.calls with
              state := { (run_calls req app.calls).state with
                REQUEST_RESPONSE_WSGI := true, REQUEST_WSGI_FILE_RESPONSE := true }
              response := some retval }
        else if PyString_Check (some retval) then
          wsgi_call_application_string_resp
            { run_calls req app.calls with
              state := { (run_calls req app.calls).state with
                REQUEST_RESPONSE_WSGI := true } } retval
        else
          match PyObject_GetIter retval with
          | none =>
            ⟨false,
              { run_calls req app.calls with
                state := { (run_calls req app.calls).state with
                  REQUEST_RESPONSE_WSGI := true } },
              some (.TypeCheck "wsgi application return value")⟩
          | some it =>
            match PyIter_Next it
              { run_calls req app.calls with
                state := { (run_calls req app.calls).state with
                  REQUEST_RESPONSE_WSGI := true, REQUEST_WSGI_ITER_RESPONSE := true }
                response := some it } with
            | none =>
              ⟨false,
                { run_calls req app.calls with
                  state := { (run_calls req app.calls).state with
                    REQUEST_RESPONSE_WSGI := true, REQUEST_WSGI_ITER_RESPONSE := true }
                  response := some it },
                some (.TypeCheck "wsgi application return value")⟩
            | some p =>
              match p.err with
              | some e =>
                ⟨false, { p.req with response := some p.iter, response_curiter := p.item },
                  some e⟩
              | none =>
                wsgi_call_application_out
                  { p.req with response := some p.iter, response_curiter := p.item } := by
  unfold wsgi_call_application
  simp only [hret]

/-- The state flags after `wsgi_call_application`, for each way the
application callable can end, in the order in which the code tests the
return value. -/
theorem wsgi_call_application_state (app : App) (req : Request) :
    (∀ exc, app.outcome = .raises exc →
      (wsgi_call_application app req).req.state = req.state
      ∧ (wsgi_call_application app req).ok = false)
    ∧ ∀ retval, app.outcome = .returns retval →
      ((∀ x, retval = .list [x] →
        (wsgi_call_application app req).req.state
          = { req.state with
              REQUEST_RESPONSE_WSGI := true, REQUEST_WSGI_STRING_RESPONSE := true })
      ∧ ((∀ x, retval ≠ .list [x]) → PyFile_Check retval = true →
        (wsgi_call_application app req).req.state
          = { req.state with
              REQUEST_RESPONSE_WSGI := true, REQUEST_WSGI_FILE_RESPONSE := true })
      ∧ ((∀ x, retval ≠ .list [x]) → PyFile_Check retval = false →
        PyString_Check (some retval) = true →
        (wsgi_call_application app req).req.state
          = { req.state with
              REQUEST_RESPONSE_WSGI := true, REQUEST_WSGI_STRING_RESPONSE := true })
      ∧ ((∀ x, retval ≠ .list [x]) → PyFile_Check retval = false →
        PyString_Check (some retval) = false → PyObject_GetIter retval ≠ none →
        (wsgi_call_application app req).req.state
          = { req.state with
              REQUEST_RESPONSE_WSGI := true, REQUEST_WSGI_ITER_RESPONSE := true })
      ∧ ((∀ x, retval ≠ .list [x]) → PyFile_Check retval = false →
        PyString_Check (some retval) = false → PyObject_GetIter retval = none →
        (wsgi_call_application app req).req.state
          = { req.state with REQUEST_RESPONSE_WSGI := true }
        ∧ (wsgi_call_application app req).ok = false)) := by
  have hst := run_calls_state app.calls req
  constructor
  · intro exc hexc
    simp [wsgi_call_application, hexc, hst]
  · intro retval hret
    refine ⟨?_, ?_, ?_, ?_, ?_⟩
    · intro x hx
      subst hx
      simp [wsgi_call_application, hret, wsgi_call_application_string_resp,
        wsgi_call_application_out_req, hst]
    · intro hnl hfile
      rw [wsgi_call_application_not_fast app req retval hret hnl]
      simp [hfile, wsgi_call_application_out_req, hst]
    · intro hnl hfile hstr
      rw [wsgi_call_application_not_fast app req retval hret hnl]
      simp [hfile, hstr, wsgi_call_application_string_resp, wsgi_call_application_out_req,
        hst]
    · intro hnl hfile hstr hiter
      rw [wsgi_call_application_not_fast app req retval hret hnl]
      cases hg : PyObject_GetIter retval with
      | none => exact absurd hg hiter
      | some it =>
        obtain ⟨pending, rfl⟩ := PyObject_GetIter_some retval it hg
        obtain ⟨p, hp, hpst⟩ := PyIter_Next_iter pending
          { run_calls req app.calls with
            state := { (run_calls req app.calls).state with
              REQUEST_RESPONSE_WSGI := true, REQUEST_WSGI_ITER_RESPONSE := true }
            response := some (.iter pending) }
        simp only [hfile, hstr, Bool.false_eq_true, if_false, hp]
        split
        · simp [hpst, hst]
        · simp [wsgi_call_application_out_req, hpst, hst]
    · intro hnl hfile hstr hiter
      rw [wsgi_call_application_not_fast app req retval hret hnl]
      simp [hfile, hstr, hiter, hst]

/-- The shape flags after `wsgi_call_application` on a request that starts
with none of them set. -/
theorem wsgi_call_application_shape_aux (app : App) (req : Request)
    (h0 : shape_flags req.state = (false, false, false)) :
    shape_count (wsgi_call_application app req).req.state ≤ 1
    ∧ ((wsgi_call_application app req).ok = true →
        shape_count (wsgi_call_application app req).req.state = 1
        ∧ (wsgi_call_application app req).req.state.REQUEST_RESPONSE_WSGI = true)
    ∧ ∀ retval, app.outcome = .returns retval →
      ((∀ x, retval = .list [x] →
          shape_flags (wsgi_call_application app req).req.state = (true, false, false))
        ∧ ((∀ x, retval ≠ .list [x]) → PyFile_Check retval = true →
          shape_flags (wsgi_call_application app req).req.state = (false, true, false))
        ∧ ((∀ x, retval ≠ .list [x]) → PyFile_Check retval = false →
          PyString_Check (some retval) = true →
          shape_flags (wsgi_call_application app req).req.state = (true, false, false))
        ∧ ((∀ x, retval ≠ .list [x]) → PyFile_Check retval = false →
          PyString_Check (some retval) = false → PyObject_GetIter retval ≠ none →
          shape_flags (wsgi_call_application app req).req.state = (false, false, true))) := by
  obtain ⟨hraise, hreturn⟩ := wsgi_call_application_state app req
  simp only [shape_flags, Prod.mk.injEq] at h0
  obtain ⟨hs, hf, hi⟩ := h0
  have hprio : ∀ retval, app.outcome = .returns retval →
      ((∀ x, retval = .list [x] →
          shape_flags (wsgi_call_application app req).req.state = (true, false, false))
        ∧ ((∀ x, retval ≠ .list [x]) → PyFile_Check retval = true →
          shape_flags (wsgi_call_application app req).req.state = (false, true, false))
        ∧ ((∀ x, retval ≠ .list [x]) → PyFile_Check retval = false →
          PyString_Check (some retval) = true →
          shape_flags (wsgi_call_application app req).req.state = (true, false, false))
        ∧ ((∀ x, retval ≠ .list [x]) → PyFile_Check retval = false →
          PyString_Check (some retval) = false → PyObject_GetIter retval ≠ none →
          shape_flags (wsgi_call_application app req).req.state = (false, false, true))) := by
    intro retval hret
    obtain ⟨h1, h2, h3, h4, _⟩ := hreturn retval hret
    refine ⟨?_, ?_, ?_, ?_⟩
    · intro x hx
      rw [h1 x hx]; simp [shape_flags, hf, hi]
    · intro a b
      rw [h2 a b]; simp [shape_flags, hs, hi]
    · intro a b c
      rw [h3 a b c]; simp [shape_flags, hf, hi]
    · intro a b c d
      rw [h4 a b c d]; simp [shape_flags, hs, hf]
  have hcount : ∀ st : request_state, shape_flags st = (true, false, false)
      ∨ shape_flags st = (false, true, false) ∨ shape_flags st = (false, false, true) →
      shape_count st = 1 := by
    intro st h
    simp only [shape_flags, Prod.mk.injEq] at h
    rcases h with ⟨a, b, c⟩ | ⟨a, b, c⟩ | ⟨a, b, c⟩ <;> simp [shape_count, a, b, c]
  have hmain : shape_count (wsgi_call_application app req).req.state ≤ 1
      ∧ ((wsgi_call_application app req).ok = true →
          shape_count (wsgi_call_application app req).req.state = 1
          ∧ (wsgi_call_application app req).req.state.REQUEST_RESPONSE_WSGI = true) := by
    cases hout : app.outcome with
    | raises exc =>
      obtain ⟨hst, hok⟩ := hraise exc hout
      refine ⟨?_, ?_⟩
      · rw [hst]; simp [shape_count, hs, hf, hi]
      · intro h; rw [hok] at h; exact absurd h (by simp)
    | returns retval =>
      obtain ⟨h1, h2, h3, h4, h5⟩ := hreturn retval hout
      obtain ⟨p1, p2, p3, p4⟩ := hprio retval hout
      by_cases hl : ∃ x, retval = .list [x]
      · obtain ⟨x, hx⟩ := hl
        have := hcount _ (Or.inl (p1 x hx))
        exact ⟨by omega, fun _ => ⟨this, by rw [h1 x hx]⟩⟩
      · have hnl : ∀ x, retval ≠ .list [x] := fun x hx => hl ⟨x, hx⟩
        cases hfile : PyFile_Check retval with
        | true =>
          have := hcount _ (Or.inr (Or.inl (p2 hnl hfile)))
          exact ⟨by omega, fun _ => ⟨this, by rw [h2 hnl hfile]⟩⟩
        | false =>
          cases hstr : PyString_Check (some retval) with
          | true =>
            have := hcount _ (Or.inl (p3 hnl hfile hstr))
            exact ⟨by omega, fun _ => ⟨this, by rw [h3 hnl hfile hstr]⟩⟩
          | false =>
            cases hg : PyObject_GetIter retval with
            | some it =>
              have hne : PyObject_GetIter retval ≠ none := by rw [hg]; simp
              have := hcount _ (Or.inr (Or.inr (p4 hnl hfile hstr hne)))
              exact ⟨by omega, fun _ => ⟨this, by rw [h4 hnl hfile hstr hne]⟩⟩
            | none =>
              obtain ⟨hst, hok⟩ := h5 hnl hfile hstr hg
              refine ⟨?_, ?_⟩
              · rw [hst]; simp [shape_count, hs, hf, hi]
              · intro h; rw [hok] at h; exact absurd h (by simp)
  exact ⟨hmain.1, hmain.2, hprio⟩

/-- Claim C11. For a request that starts with none of the three shape flags
set, whatever the application does: after `wsgi_call_application` at most one
shape flag is set; when the call reports success exactly one is set, together
with REQUEST_RESPONSE_WSGI; and the flag follows the order of the tests on the
return value: a list of one element gives STRING, otherwise a file gives FILE,
otherwise a string gives STRING, otherwise an iterable gives ITER. -/
theorem wsgi_call_application_shape_flags (app : App) (req : Request)
    (h0 : shape_flags req.state = (false, false, false)) :
    shape_count (wsgi_call_application app req).req.state ≤ 1
    ∧ ((wsgi_call_application app req).ok = true →
        shape_count (wsgi_call_application app req).req.state = 1
        ∧ (wsgi_call_application app req).req.state.REQUEST_RESPONSE_WSGI = true)
    ∧ ∀ retval, app.outcome = .returns retval →
      ((∀ x, retval = .list [x] →
          shape_flags (wsgi_call_application app req).req.state = (true, false, false))
        ∧ ((∀ x, retval ≠ .list [x]) → PyFile_Check retval = true →
          shape_flags (wsgi_call_application app req).req.state = (false, true, false))
        ∧ ((∀ x, retval ≠ .list [x]) → PyFile_Check retval = false →
          PyString_Check (some retval) = true →
          shape_flags (wsgi_call_application app req).req.state = (true, false, false))
        ∧ ((∀ x, retval ≠ .list [x]) → PyFile_Check retval = false →
          PyString_Check (some retval) = false → PyObject_GetIter retval ≠ none →
          shape_flags (wsgi_call_application app req).req.state = (false, false, true))) :=
  wsgi_call_application_shape_aux app req h0

/-- Claim C11 on a fresh request and the application `abc_app`, which returns
an iterator. -/
theorem wsgi_call_application_shape_flags_witness :
    shape_count (wsgi_call_application abc_app Request.fresh).req.state ≤ 1
    ∧ ((wsgi_call_application abc_app Request.fresh).ok = true →
        shape_count (wsgi_call_application abc_app Request.fresh).req.state = 1
        ∧ (wsgi_call_application abc_app
            Request.fresh).req.state.REQUEST_RESPONSE_WSGI = true)
    ∧ ∀ retval, abc_app.outcome = .returns retval →
      ((∀ x, retval = .list [x] →
          shape_flags (wsgi_call_application abc_app Request.fresh).req.state
            = (true, false, false))
        ∧ ((∀ x, retval ≠ .list [x]) → PyFile_Check retval = true →
          shape_flags (wsgi_call_application abc_app Request.fresh).req.state
            = (false, true, false))
        ∧ ((∀ x, retval ≠ .list [x]) → PyFile_Check retval = false →
          PyString_Check (some retval) = true →
          shape_flags (wsgi_call_application abc_app Request.fresh).req.state
            = (true, false, false))
        ∧ ((∀ x, retval ≠ .list [x]) → PyFile_Check retval = false →
          PyString_Check (some retval) = false → PyObject_GetIter retval ≠ none →
          shape_flags (wsgi_call_application abc_app Request.fresh).req.state
            = (false, false, true))) :=
  wsgi_call_application_shape_flags abc_app Request.fresh rfl

/-! ## Dispatch and ordering in `wsgi_send_response` -/

theorem buf_write_error (buf src : String) (e : Fault) (h : buf_write buf src = .error e) :
    e = .buffer_overrun := by
  unfold buf_write at h
  split at h
  · cases h
  · cases h; rfl

theorem sendheaders_loop_error (entries : List PyObj) :
    ∀ (buf : String) (e : Fault), sendheaders_loop entries buf = .error e →
      e = .buffer_overrun := by
  induction entries with
  | nil => intro buf e h; simp [sendheaders_loop] at h
  | cons entry rest ih =>
    intro buf e h
    unfold sendheaders_loop at h
    split at h
    · split at h
      · split at h
        · split at h
          · cases h; exact buf_write_error _ _ _ (by assumption)
          · split at h
            · cases h; exact buf_write_error _ _ _ (by assumption)
            · split at h
              · cases h; exact buf_write_error _ _ _ (by assumption)
              · split at h
                · cases h; exact buf_write_error _ _ _ (by assumption)
                · exact ih _ _ h
        · cases h
      · cases h
    · cases h

/-- The header serializer returns the request it was given, and when it has
no defined result that is never for an assertion. -/
theorem wsgi_sendheaders_cases (req : Request) (sock : Socket) :
    (∃ h, wsgi_sendheaders req sock = .ok h ∧ h.req = req)
    ∨ (∃ e, wsgi_sendheaders req sock = .error e ∧ ∀ fn, e ≠ .assertion fn) := by
  unfold wsgi_sendheaders
  split
  · rename_i e he
    right
    exact ⟨e, rfl, by rw [buf_write_error _ _ _ he]; intro fn h; cases h⟩
  · split
    · split
      · rename_i e he
        right
        exact ⟨e, rfl, by rw [buf_write_error _ _ _ he]; intro fn h; cases h⟩
      · split
        · split
          · rename_i e he
            right
            exact ⟨e, rfl, by rw [sendheaders_loop_error _ _ _ he]; intro fn h; cases h⟩
          · left; exact ⟨_, rfl, rfl⟩
          · split
            · rename_i e he
              right
              exact ⟨e, rfl, by rw [buf_write_error _ _ _ he]; intro fn h; cases h⟩
            · left; exact ⟨_, rfl, rfl⟩
        · right; exact ⟨_, rfl, by intro fn h; cases h⟩
    · right; exact ⟨_, rfl, by intro fn h; cases h⟩

/-- The four ways a call of `wsgi_send_response` can go. -/
theorem wsgi_send_response_cases (q : Request) (sock : Socket) :
    (q.state.REQUEST_RESPONSE_HEADERS_SENT = true
      ∧ wsgi_send_response q sock = wsgi_send_body q sock)
    ∨ (q.state.REQUEST_RESPONSE_HEADERS_SENT = false
      ∧ ∃ e, wsgi_sendheaders q sock = .error e ∧ (∀ fn, e ≠ .assertion fn)
        ∧ wsgi_send_response q sock = .error e)
    ∨ (q.state.REQUEST_RESPONSE_HEADERS_SENT = false
      ∧ ∃ h, wsgi_sendheaders q sock = .ok h ∧ h.ret = true ∧ h.req = q
        ∧ wsgi_send_response q sock = .ok h)
    ∨ (q.state.REQUEST_RESPONSE_HEADERS_SENT = false
      ∧ ∃ h, wsgi_sendheaders q sock = .ok h ∧ h.ret = false
        ∧ wsgi_send_response q sock
          = wsgi_send_body
              { q with state := { q.state with REQUEST_RESPONSE_HEADERS_SENT := true } }
              h.sock) := by
  cases hs : q.state.REQUEST_RESPONSE_HEADERS_SENT with
  | true => left; exact ⟨rfl, by simp [wsgi_send_response, hs]⟩
  | false =>
    right
    rcases wsgi_sendheaders_cases q sock with ⟨h, hh, hreq⟩ | ⟨e, he, hne⟩
    · cases hret : h.ret with
      | true =>
        right; left
        exact ⟨rfl, h, hh, hret, hreq, by simp [wsgi_send_response, hs, hh, hret]⟩
      | false =>
        right; right
        exact ⟨rfl, h, hh, hret, by simp [wsgi_send_response, hs, hh, hret, hreq]⟩
    · left
      exact ⟨rfl, e, he, hne, by simp [wsgi_send_response, hs, he]⟩

theorem wsgi_sendstring_cases (q : Request) (sock : Socket) :
    (∀ r, wsgi_sendstring q sock = .ok r → r.req.state = q.state)
    ∧ ∀ fn, wsgi_sendstring q sock ≠ .error (.assertion fn) := by
  constructor
  · intro r h
    unfold wsgi_sendstring at h
    split at h
    · cases h; rfl
    · cases h
  · intro fn h
    unfold wsgi_sendstring at h
    split at h
    · cases h
    · cases h

theorem wsgi_senditer_cases (q : Request) (sock : Socket) :
    (∀ r, wsgi_senditer q sock = .ok r → r.req.state = q.state)
    ∧ ∀ fn, wsgi_senditer q sock ≠ .error (.assertion fn) := by
  constructor
  · intro r h
    unfold wsgi_senditer at h
    split at h
    · cases h; rfl
    · split at h
      · cases h
        exact (senditer_loop_budget _ _ _ _ _).choose_spec.2.2.2
      · split at h
        · split at h
          · cases h; rfl
          · cases h
        · cases h; rfl
  · intro fn h
    unfold wsgi_senditer at h
    split at h
    · cases h
    · split at h
      · cases h
      · split at h
        · split at h
          · cases h
          · cases h
        · cases h

/-- The body senders leave the state flags as they are, and when one of them
has no defined result for an assertion, it is `wsgi_sendfile` on a request
with the FILE flag and without the STRING flag, or the end of the dispatch on
a request with no shape flag. -/
theorem wsgi_send_body_cases (q : Request) (sock : Socket) :
    (∀ r, wsgi_send_body q sock = .ok r → r.req.state = q.state)
    ∧ (∀ fn, wsgi_send_body q sock = .error (.assertion fn) ↔
        ((fn = "wsgi_sendfile" ∧ q.state.REQUEST_WSGI_STRING_RESPONSE = false
            ∧ q.state.REQUEST_WSGI_FILE_RESPONSE = true)
          ∨ (fn = "wsgi_send_response" ∧ shape_flags q.state = (false, false, false)))) := by
  constructor
  · intro r h
    unfold wsgi_send_body at h
    split at h
    · exact (wsgi_sendstring_cases q sock).1 r h
    · split at h
      · cases h
      · split at h
        · exact (wsgi_senditer_cases q sock).1 r h
        · cases h
  · intro fn
    cases hs : q.state.REQUEST_WSGI_STRING_RESPONSE with
    | true =>
      have := (wsgi_sendstring_cases q sock).2 fn
      simp [wsgi_send_body, hs, shape_flags, this]
    | false =>
      cases hf : q.state.REQUEST_WSGI_FILE_RESPONSE with
      | true =>
        simp only [wsgi_send_body, hs, hf, shape_flags, wsgi_sendfile, Bool.false_eq_true,
          if_false, if_true]
        constructor
        · intro h
          injection h with h
          injection h with h
          exact Or.inl ⟨h.symm, trivial, trivial⟩
        · rintro (⟨h, _, _⟩ | ⟨_, h⟩)
          · rw [h]
          · simp at h
      | false =>
        cases hi : q.state.REQUEST_WSGI_ITER_RESPONSE with
        | true =>
          have := (wsgi_senditer_cases q sock).2 fn
          simp [wsgi_send_body, hs, hf, hi, shape_flags, this]
        | false =>
          simp only [wsgi_send_body, hs, hf, hi, shape_flags, Bool.false_eq_true, if_false]
          constructor
          · intro h
            injection h with h
            injection h with h
            exact Or.inr ⟨h.symm, trivial⟩
          · rintro (⟨_, _, h⟩ | ⟨h, _⟩)
            · simp at h
            · rw [h]

theorem shape_count_congr (a b : request_state) (h : shape_flags a = shape_flags b) :
    shape_count a = shape_count b := by
  simp only [shape_flags, Prod.mk.injEq] at h
  simp [shape_count, h.1, h.2.1, h.2.2]

theorem shape_count_one (st : request_state) (h : shape_count st = 1) :
    (st.REQUEST_WSGI_STRING_RESPONSE = true ∧ st.REQUEST_WSGI_FILE_RESPONSE = false
      ∧ st.REQUEST_WSGI_ITER_RESPONSE = false)
    ∨ (st.REQUEST_WSGI_STRING_RESPONSE = false ∧ st.REQUEST_WSGI_FILE_RESPONSE = true
      ∧ st.REQUEST_WSGI_ITER_RESPONSE = false)
    ∨ (st.REQUEST_WSGI_STRING_RESPONSE = false ∧ st.REQUEST_WSGI_FILE_RESPONSE = false
      ∧ st.REQUEST_WSGI_ITER_RESPONSE = true) := by
  unfold shape_count at h
  cases hs : st.REQUEST_WSGI_STRING_RESPONSE <;> cases hf : st.REQUEST_WSGI_FILE_RESPONSE
    <;> cases hi : st.REQUEST_WSGI_ITER_RESPONSE <;> simp [hs, hf, hi] at h ⊢

/-- Claim C19. Take a request on which `wsgi_call_application` succeeded,
having started with no shape flag set, and any request `q` with the same
shape flags (the request itself, or the one a later call receives). Exactly
one shape flag is set, and the dispatch of `wsgi_send_response` goes to the
sender of that flag. The `assert(0)` at the end of `wsgi_send_response` is
never reached; and a call ends in a failed assertion exactly when the flag is
FILE and the headers have been written, in an earlier call or successfully in
this one: the assertion is then that of `wsgi_sendfile`. -/
theorem wsgi_send_response_dispatch (app : App) (req0 : Request) (q : Request)
    (sock : Socket)
    (h0 : shape_flags req0.state = (false, false, false))
    (hok : (wsgi_call_application app req0).ok = true)
    (hq : shape_flags q.state = shape_flags (wsgi_call_application app req0).req.state) :
    shape_count q.state = 1
    ∧ ((q.state.REQUEST_WSGI_STRING_RESPONSE = true
          ∧ wsgi_send_body q sock = wsgi_sendstring q sock)
        ∨ (q.state.REQUEST_WSGI_STRING_RESPONSE = false
          ∧ q.state.REQUEST_WSGI_FILE_RESPONSE = true
          ∧ wsgi_send_body q sock = wsgi_sendfile q sock)
        ∨ (q.state.REQUEST_WSGI_STRING_RESPONSE = false
          ∧ q.state.REQUEST_WSGI_FILE_RESPONSE = false
          ∧ q.state.REQUEST_WSGI_ITER_RESPONSE = true
          ∧ wsgi_send_body q sock = wsgi_senditer q sock))
    ∧ wsgi_send_response q sock ≠ .error (.assertion "wsgi_send_response")
    ∧ ∀ fn, wsgi_send_response q sock = .error (.assertion fn) ↔
        (fn = "wsgi_sendfile" ∧ q.state.REQUEST_WSGI_FILE_RESPONSE = true
          ∧ (q.state.REQUEST_RESPONSE_HEADERS_SENT = true
            ∨ ∃ h, wsgi_sendheaders q sock = .ok h ∧ h.ret = false)) := by
  have hc : shape_count q.state = 1 := by
    rw [shape_count_congr _ _ hq]
    exact ((wsgi_call_application_shape_aux app req0 h0).2.1 hok).1
  have hflags := shape_count_one q.state hc
  have hstr : q.state.REQUEST_WSGI_FILE_RESPONSE = true →
      q.state.REQUEST_WSGI_STRING_RESPONSE = false := by
    intro hf
    rcases hflags with ⟨_, b, _⟩ | ⟨a, _, _⟩ | ⟨a, _, _⟩
    · rw [hf] at b; cases b
    · exact a
    · exact a
  have hnone : shape_flags q.state ≠ (false, false, false) := by
    intro h
    simp only [shape_flags, Prod.mk.injEq] at h
    rcases hflags with ⟨a, _, _⟩ | ⟨_, b, _⟩ | ⟨_, _, c⟩
    · rw [h.1] at a; cases a
    · rw [h.2.1] at b; cases b
    · rw [h.2.2] at c; cases c
  have key : ∀ fn, wsgi_send_response q sock = .error (.assertion fn) ↔
      (fn = "wsgi_sendfile" ∧ q.state.REQUEST_WSGI_FILE_RESPONSE = true
        ∧ (q.state.REQUEST_RESPONSE_HEADERS_SENT = true
          ∨ ∃ h, wsgi_sendheaders q sock = .ok h ∧ h.ret = false)) := by
    intro fn
    rcases wsgi_send_response_cases q sock with
      ⟨hs, hr⟩ | ⟨hs, e, he, hne, hr⟩ | ⟨hs, h, hh, hret, _, hr⟩ | ⟨hs, h, hh, hret, hr⟩
    · rw [hr, (wsgi_send_body_cases q sock).2 fn]
      constructor
      · rintro (⟨a, _, c⟩ | ⟨_, b⟩)
        · exact ⟨a, c, Or.inl hs⟩
        · exact absurd b hnone
      · rintro ⟨a, c, _⟩
        exact Or.inl ⟨a, hstr c, c⟩
    · rw [hr]
      constructor
      · intro h
        injection h with h
        exact absurd h (hne fn)
      · rintro ⟨_, _, (h | ⟨h2, hh2, _⟩)⟩
        · rw [hs] at h; cases h
        · rw [he] at hh2; cases hh2
    · rw [hr]
      constructor
      · intro h; cases h
      · rintro ⟨_, _, (h1 | ⟨h2, hh2, hret2⟩)⟩
        · rw [hs] at h1; cases h1
        · rw [hh] at hh2
          cases hh2
          rw [hret] at hret2; cases hret2
    · rw [hr, (wsgi_send_body_cases _ h.sock).2 fn]
      constructor
      · rintro (⟨a, _, c⟩ | ⟨_, b⟩)
        · exact ⟨a, c, Or.inr ⟨h, hh, hret⟩⟩
        · exact absurd b hnone
      · rintro ⟨a, c, _⟩
        exact Or.inl ⟨a, hstr c, c⟩
  refine ⟨hc, ?_, ?_, key⟩
  · rcases hflags with ⟨a, _, _⟩ | ⟨a, b, _⟩ | ⟨a, b, c⟩
    · exact Or.inl ⟨a, by simp [wsgi_send_body, a]⟩
    · exact Or.inr (Or.inl ⟨a, b, by simp [wsgi_send_body, a, b]⟩)
    · exact Or.inr (Or.inr ⟨a, b, c, by simp [wsgi_send_body, a, b, c]⟩)
  · intro h
    have := ((key "wsgi_send_response").1 h).1
    exact absurd this (by decide)

/-- Claim C19 on a fresh request and the application `file_app`, which returns
a file. -/
theorem wsgi_send_response_dispatch_witness :
    shape_count file_request.state = 1
    ∧ ((file_request.state.REQUEST_WSGI_STRING_RESPONSE = true
          ∧ wsgi_send_body file_request ⟨[], []⟩ = wsgi_sendstring file_request ⟨[], []⟩)
        ∨ (file_request.state.REQUEST_WSGI_STRING_RESPONSE = false
          ∧ file_request.state.REQUEST_WSGI_FILE_RESPONSE = true
          ∧ wsgi_send_body file_request ⟨[], []⟩ = wsgi_sendfile file_request ⟨[], []⟩)
        ∨ (file_request.state.REQUEST_WSGI_STRING_RESPONSE = false
          ∧ file_request.state.REQUEST_WSGI_FILE_RESPONSE = false
          ∧ file_request.state.REQUEST_WSGI_ITER_RESPONSE = true
          ∧ wsgi_send_body file_request ⟨[], []⟩ = wsgi_senditer file_request ⟨[], []⟩))
    ∧ wsgi_send_response file_request ⟨[], []⟩ ≠ .error (.assertion "wsgi_send_response")
    ∧ ∀ fn, wsgi_send_response file_request ⟨[], []⟩ = .error (.assertion fn) ↔
        (fn = "wsgi_sendfile" ∧ file_request.state.REQUEST_WSGI_FILE_RESPONSE = true
          ∧ (file_request.state.REQUEST_RESPONSE_HEADERS_SENT = true
            ∨ ∃ h, wsgi_sendheaders file_request ⟨[], []⟩ = .ok h ∧ h.ret = false)) :=
  wsgi_send_response_dispatch file_app Request.fresh file_request ⟨[], []⟩ rfl rfl rfl

/-- The request left by `file_app` reaches the assertion of `wsgi_sendfile` in
its first call, after the headers were written. -/
theorem wsgi_send_response_file_asserts :
    file_request.state.REQUEST_WSGI_FILE_RESPONSE = true
    ∧ wsgi_sendheaders file_request ⟨[], []⟩
      = .ok ⟨false, file_request, ⟨["HTTP/1.1 200 OK\r\n\r\n"], []⟩, none⟩
    ∧ wsgi_send_response file_request ⟨[], []⟩ = .error (.assertion "wsgi_sendfile") :=
  ⟨rfl, rfl, rfl⟩

/-! ## Headers before body -/

/-- While `wsgi_send_response` is called again after each `false`, every call
but the first one is made on a request with HEADERS_SENT set. -/
theorem send_until_done_blocked_sent (fuel : Nat) :
    ∀ (q : Request) (sk : Socket) (blocked : List Sent) (final : Sent),
      send_until_done fuel q sk = some (blocked, final) →
      ∀ t ∈ blocked, t.req.state.REQUEST_RESPONSE_HEADERS_SENT = true := by
  induction fuel with
  | zero => intro q sk blocked final h; simp [send_until_done] at h
  | succ f ih =>
    intro q sk blocked final h
    rw [send_until_done_succ] at h
    cases hr : wsgi_send_response q sk with
    | error e => rw [hr] at h; simp at h
    | ok r =>
      rw [hr] at h
      simp only [resume] at h
      cases hret : r.ret with
      | true =>
        simp only [hret, if_true, Option.some.injEq, Prod.mk.injEq] at h
        intro t ht
        rw [← h.1] at ht
        cases ht
      | false =>
        simp only [hret, Bool.false_eq_true, if_false] at h
        cases hrest : send_until_done f r.req r.sock with
        | none => rw [hrest] at h; simp at h
        | some res =>
          obtain ⟨blocked2, final2⟩ := res
          rw [hrest] at h
          simp only [Option.some.injEq, Prod.mk.injEq] at h
          have hflag : r.req.state.REQUEST_RESPONSE_HEADERS_SENT = true := by
            rcases wsgi_send_response_cases q sk with
              ⟨hs, hb⟩ | ⟨_, e, _, _, hb⟩ | ⟨_, h2, _, hret2, _, hb⟩ | ⟨_, h2, _, _, hb⟩
            · rw [hb] at hr
              rw [(wsgi_send_body_cases q sk).1 r hr]
              exact hs
            · rw [hb] at hr; cases hr
            · rw [hb] at hr
              cases hr
              rw [hret2] at hret; cases hret
            · rw [hb] at hr
              rw [(wsgi_send_body_cases _ _).1 r hr]
          intro t ht
          rw [← h.1] at ht
          rcases List.mem_cons.mp ht with rfl | ht
          · exact hflag
          · exact ih r.req r.sock blocked2 final2 hrest t ht

/-- One call of the loop, for any iterator, any chunks and any writer: the
buffers `ws` it hands to `sendall` are, in order, the leading items of the
payload (the current chunk, then what the pulls yield), and when it returns
`false` the request holds the rest of the payload: the next item in
`response_curiter` and the iterator after it. -/
theorem senditer_loop_payload (pending : List Pull) :
    ∀ (cur : PyObj) (sent : Nat) (req : Request) (sock : Socket),
      req.response = some (.iter pending) →
      ∃ (ws : List String) (rest : List (Option PyObj)),
        (senditer_loop pending cur sent req sock).sock.passed = sock.passed ++ ws
        ∧ some cur :: pending.map Pull.item
          = ws.map (fun w => some (PyObj.str w)) ++ rest
        ∧ ((senditer_loop pending cur sent req sock).ret = false →
            ∃ c pending2,
              (senditer_loop pending cur sent req sock).req.response_curiter = some c
              ∧ (senditer_loop pending cur sent req sock).req.response
                = some (.iter pending2)
              ∧ rest = some c :: pending2.map Pull.item) := by
  induction pending with
  | nil =>
    intro cur sent req sock hresp
    rw [senditer_loop_round]
    rcases senditer_round_cases cur sent req sock with
      ⟨_, hr⟩ | ⟨_, _, hr⟩ | ⟨s, sock1, _, hcur, hw, hr⟩ | ⟨s, sock1, _, hcur, hw, hr⟩
    · rw [hr]
      exact ⟨[], [some cur], by simp, rfl, fun _ => ⟨cur, [], rfl, hresp, rfl⟩⟩
    · rw [hr]
      exact ⟨[], [some cur], by simp, rfl, fun h => by simp at h⟩
    · rw [hr]
      exact ⟨[s], [], sendall_passed_of_eq _ _ _ _ hw, by rw [hcur]; rfl,
        fun h => by simp at h⟩
    · rw [hr]
      exact ⟨[s], [], sendall_passed_of_eq _ _ _ _ hw, by rw [hcur]; rfl,
        fun h => by simp [senditer_pull] at h⟩
  | cons p more ih =>
    intro cur sent req sock hresp
    rw [senditer_loop_round]
    rcases senditer_round_cases cur sent req sock with
      ⟨_, hr⟩ | ⟨_, _, hr⟩ | ⟨s, sock1, _, hcur, hw, hr⟩ | ⟨s, sock1, _, hcur, hw, hr⟩
    · rw [hr]
      exact ⟨[], some cur :: (p :: more).map Pull.item, by simp, rfl,
        fun _ => ⟨cur, p :: more, rfl, hresp, rfl⟩⟩
    · rw [hr]
      exact ⟨[], some cur :: (p :: more).map Pull.item, by simp, rfl,
        fun h => by simp at h⟩
    · rw [hr]
      exact ⟨[s], (p :: more).map Pull.item, sendall_passed_of_eq _ _ _ _ hw,
        by rw [hcur]; rfl, fun h => by simp at h⟩
    · rw [hr]
      have hp1 := sendall_passed_of_eq _ _ _ _ hw
      cases p with
      | yield calls item =>
        simp only [senditer_pull]
        obtain ⟨ws, rest, hpassed, hitems, hblock⟩ :=
          ih item (sent + s.length)
            { run_calls req calls with response := some (.iter more) } sock1 rfl
        refine ⟨s :: ws, rest, ?_, ?_, hblock⟩
        · rw [hpassed, hp1]; simp
        · simp only [List.map_cons, Pull.item, List.cons_append, hcur]
          rw [← hitems]
      | raise calls exc =>
        simp only [senditer_pull]
        exact ⟨[s], (Pull.raise calls exc :: more).map Pull.item, hp1,
          by rw [hcur]; rfl, fun h => by simp at h⟩

theorem iterator_items_not_iter (o : Option PyObj)
    (h : ∀ pending, o = some (.iter pending) → False) : iterator_items o = [] := by
  unfold iterator_items
  split
  · rename_i pending
    exact absurd rfl (fun e => h pending e)
  · rfl

/-- What a call of the body dispatch hands to the writer, for any request and
any writer: the leading items of the payload, in order, and nothing else; and
when the call returns `false` the request holds the rest of the payload. -/
theorem wsgi_send_body_payload (q : Request) (sk : Socket) (r : Sent)
    (h : wsgi_send_body q sk = .ok r) :
    ∃ (ws : List String) (rest : List (Option PyObj)),
      r.sock.passed = sk.passed ++ ws
      ∧ payload_items q = ws.map (fun w => some (PyObj.str w)) ++ rest
      ∧ (r.ret = false → payload_items r.req = rest) := by
  have hstate := (wsgi_send_body_cases q sk).1 r h
  cases hs : q.state.REQUEST_WSGI_STRING_RESPONSE with
  | true =>
    simp only [wsgi_send_body, hs, if_true] at h
    unfold wsgi_sendstring at h
    split at h
    · rename_i s hresp
      cases h
      exact ⟨[s], [], sendall_passed sk s, by simp [payload_items, hs, hresp],
        fun h => by simp at h⟩
    · cases h
  | false =>
    cases hf : q.state.REQUEST_WSGI_FILE_RESPONSE with
    | true => simp [wsgi_send_body, hs, hf, wsgi_sendfile] at h
    | false =>
      cases hi : q.state.REQUEST_WSGI_ITER_RESPONSE with
      | false => simp [wsgi_send_body, hs, hf, hi] at h
      | true =>
        simp only [wsgi_send_body, hs, hf, hi, Bool.false_eq_true, if_false, if_true] at h
        unfold wsgi_senditer at h
        split at h
        · rename_i hcur
          cases h
          exact ⟨[], [], by simp, by simp [payload_items, hs, hf, hi, hcur],
            fun h => by simp at h⟩
        · rename_i cur hcur
          split at h
          · rename_i pending hresp
            cases h
            obtain ⟨ws, rest, hpassed, hitems, hblock⟩ :=
              senditer_loop_payload pending cur 0 q sk hresp
            refine ⟨ws, rest, hpassed, ?_, ?_⟩
            · rw [← hitems]
              simp [payload_items, hs, hf, hi, hcur, hresp, iterator_items]
            · intro hret
              obtain ⟨c, pending2, hc, hp2, hrest⟩ := hblock hret
              rw [hrest]
              simp [payload_items, hstate, hs, hf, hi, hc, hp2, iterator_items]
          · rename_i hnot
            have hit : iterator_items q.response = [] :=
              iterator_items_not_iter _ (fun pending e => hnot pending e)
            split at h
            · rename_i s
              split at h
              · rename_i sock1 hw
                cases h
                exact ⟨[s], [], sendall_passed_of_eq _ _ _ _ hw,
                  by simp [payload_items, hs, hf, hi, hcur, hit], fun h => by simp at h⟩
              · cases h
            · cases h
              exact ⟨[], payload_items q, by simp, by simp, fun h => by simp at h⟩

/-- The header serializer hands at most one buffer to the writer, and exactly
one when it returns `false`. -/
theorem wsgi_sendheaders_passed (q : Request) (sk : Socket) (h : Sent)
    (hh : wsgi_sendheaders q sk = .ok h) :
    (h.ret = true ∧ h.sock.passed = sk.passed)
    ∨ ∃ buf, h.sock.passed = sk.passed ++ [buf] := by
  unfold wsgi_sendheaders at hh
  split at hh
  · cases hh
  · split at hh
    · split at hh
      · cases hh
      · split at hh
        · split at hh
          · cases hh
          · cases hh
            exact Or.inl ⟨rfl, rfl⟩
          · split at hh
            · cases hh
            · cases hh
              exact Or.inr ⟨_, sendall_passed sk _⟩
        · cases hh
    · cases hh

/-- While `wsgi_send_response` is called again after each `false` on a request
with HEADERS_SENT set, with any writer: at every call, what the writer has
been handed since the start is a leading part of the payload of the request,
in order, and nothing else. -/
theorem send_until_done_payload (fuel : Nat) :
    ∀ (q : Request) (sk : Socket) (blocked : List Sent) (final : Sent),
      q.state.REQUEST_RESPONSE_HEADERS_SENT = true →
      send_until_done fuel q sk = some (blocked, final) →
      (∃ (body : List String) (rest : List (Option PyObj)),
        final.sock.passed = sk.passed ++ body
        ∧ payload_items q = body.map (fun w => some (PyObj.str w)) ++ rest)
      ∧ ∀ t ∈ blocked, ∃ (b : List String) (rest : List (Option PyObj)),
        t.sock.passed = sk.passed ++ b
        ∧ payload_items q = b.map (fun w => some (PyObj.str w)) ++ rest := by
  induction fuel with
  | zero => intro q sk blocked final _ h; simp [send_until_done] at h
  | succ f ih =>
    intro q sk blocked final hq h
    rw [send_until_done_succ] at h
    have hb : wsgi_send_response q sk = wsgi_send_body q sk := by
      simp [wsgi_send_response, hq]
    cases hr : wsgi_send_body q sk with
    | error e => rw [hb, hr] at h; simp at h
    | ok r =>
      rw [hb, hr] at h
      obtain ⟨ws, rest, hpassed, hitems, hblock⟩ := wsgi_send_body_payload q sk r hr
      have hstate := (wsgi_send_body_cases q sk).1 r hr
      simp only [resume] at h
      cases hret : r.ret with
      | true =>
        simp only [hret, if_true, Option.some.injEq, Prod.mk.injEq] at h
        obtain ⟨h1, h2⟩ := h
        subst h1 h2
        exact ⟨⟨ws, rest, hpassed, hitems⟩, fun t ht => by cases ht⟩
      | false =>
        simp only [hret, Bool.false_eq_true, if_false] at h
        cases hrest : send_until_done f r.req r.sock with
        | none => rw [hrest] at h; simp at h
        | some res =>
          obtain ⟨blocked2, final2⟩ := res
          rw [hrest] at h
          simp only [Option.some.injEq, Prod.mk.injEq] at h
          obtain ⟨h1, h2⟩ := h
          subst h1 h2
          have hq2 : r.req.state.REQUEST_RESPONSE_HEADERS_SENT = true := by
            rw [hstate]; exact hq
          obtain ⟨⟨body, rest2, hfp, hfi⟩, hbl⟩ := ih r.req r.sock blocked2 final2 hq2 hrest
          rw [hblock hret] at hfi
          refine ⟨⟨ws ++ body, rest2, ?_, ?_⟩, ?_⟩
          · rw [hfp, hpassed, List.append_assoc]
          · rw [hitems, hfi]; simp
          · intro t ht
            rcases List.mem_cons.mp ht with rfl | ht
            · exact ⟨ws, rest, hpassed, hitems⟩
            · obtain ⟨b, rest3, hbp, hbi⟩ := hbl t ht
              rw [hblock hret] at hbi
              refine ⟨ws ++ b, rest3, ?_, ?_⟩
              · rw [hbp, hpassed, List.append_assoc]
              · rw [hitems, hbi]; simp

theorem payload_items_headers_sent (q : Request) :
    payload_items
        { q with state := { q.state with REQUEST_RESPONSE_HEADERS_SENT := true } }
      = payload_items q := rfl

/-- Claim C14. For every call of `wsgi_send_response`, with any request and
any writer: HEADERS_SENT is never cleared; a call made with HEADERS_SENT set
is the body dispatch and hands to the writer only the leading items of the
payload still to deliver, in order, so the header serializer is not entered
again; a call that starts and ends with HEADERS_SENT unset is the serializer
alone, which returned `true` after at most one buffer: no body byte was
handed over; and a call that sets HEADERS_SENT hands over the one buffer of
the serializer first and payload after it. While the function is called
again after each `false`, every call but the first is made with HEADERS_SENT
set. And on a writer that accepts every write, for a string status and
headers that render within the buffer: the first call hands over the header
bytes and goes on as the body dispatch, and at every call of the run what
the writer has been handed is the header bytes once, first, followed by a
leading part of the payload and nothing else. -/
theorem wsgi_send_response_headers_before_body (req : Request) (sock : Socket)
    (s : String) (hs : List Header)
    (hsent : req.state.REQUEST_RESPONSE_HEADERS_SENT = false)
    (hstatus : req.status = some (.str s))
    (hheaders : req.response_headers = some (.list (hs.map Header.toPyObj)))
    (hfit : (spec_wire_format s hs).length ≤ BUFSIZE)
    (hacc : sock.accepts_all) :
    (∃ sock1 : Socket, sock1.accepts_all
      ∧ sock1.passed = sock.passed ++ [spec_wire_format s hs]
      ∧ wsgi_send_response req sock
        = wsgi_send_body
            { req with state := { req.state with REQUEST_RESPONSE_HEADERS_SENT := true } }
            sock1)
    ∧ (∀ (q : Request) (sk : Socket) (r : Sent), wsgi_send_response q sk = .ok r →
        q.state.REQUEST_RESPONSE_HEADERS_SENT = true →
        r.req.state.REQUEST_RESPONSE_HEADERS_SENT = true)
    ∧ (∀ (q : Request) (sk : Socket), q.state.REQUEST_RESPONSE_HEADERS_SENT = true →
        wsgi_send_response q sk = wsgi_send_body q sk)
    ∧ (∀ (fuel : Nat) (q : Request) (sk : Socket) (blocked : List Sent) (final : Sent),
        send_until_done fuel q sk = some (blocked, final) →
        ∀ t ∈ blocked, t.req.state.REQUEST_RESPONSE_HEADERS_SENT = true)
    ∧ (∀ (q : Request) (sk : Socket) (r : Sent),
        q.state.REQUEST_RESPONSE_HEADERS_SENT = false →
        wsgi_send_response q sk = .ok r →
        r.req.state.REQUEST_RESPONSE_HEADERS_SENT = false →
        wsgi_sendheaders q sk = .ok r ∧ r.ret = true ∧ r.req = q
        ∧ (r.sock.passed = sk.passed ∨ ∃ buf, r.sock.passed = sk.passed ++ [buf]))
    ∧ (∀ (q : Request) (sk : Socket) (r : Sent),
        q.state.REQUEST_RESPONSE_HEADERS_SENT = true →
        wsgi_send_response q sk = .ok r →
        ∃ (ws : List String) (rest : List (Option PyObj)),
          r.sock.passed = sk.passed ++ ws
          ∧ payload_items q = ws.map (fun w => some (PyObj.str w)) ++ rest
          ∧ (r.ret = false → payload_items r.req = rest))
    ∧ (∀ (q : Request) (sk : Socket) (r : Sent),
        q.state.REQUEST_RESPONSE_HEADERS_SENT = false →
        wsgi_send_response q sk = .ok r →
        r.req.state.REQUEST_RESPONSE_HEADERS_SENT = true →
        ∃ (h : Sent) (buf : String) (ws : List String) (rest : List (Option PyObj)),
          wsgi_sendheaders q sk = .ok h ∧ h.ret = false
          ∧ h.sock.passed = sk.passed ++ [buf]
          ∧ r.sock.passed = sk.passed ++ buf :: ws
          ∧ payload_items q = ws.map (fun w => some (PyObj.str w)) ++ rest
          ∧ (r.ret = false → payload_items r.req = rest))
    ∧ (∀ (fuel : Nat) (blocked : List Sent) (final : Sent),
        send_until_done fuel req sock = some (blocked, final) →
        (∃ (body : List String) (rest : List (Option PyObj)),
          final.sock.passed = sock.passed ++ spec_wire_format s hs :: body
          ∧ payload_items req = body.map (fun w => some (PyObj.str w)) ++ rest)
        ∧ ∀ t ∈ blocked, ∃ (b : List String) (rest : List (Option PyObj)),
          t.sock.passed = sock.passed ++ spec_wire_format s hs :: b
          ∧ payload_items req = b.map (fun w => some (PyObj.str w)) ++ rest) := by
  refine ⟨?_, ?_, ?_, send_until_done_blocked_sent, ?_, ?_, ?_, ?_⟩
  · obtain ⟨sock1, ha, hp, hcall⟩ :=
      wsgi_send_response_first req sock s hs hsent hstatus hheaders hfit hacc
    refine ⟨sock1, ha, hp, ?_⟩
    rw [hcall]
    simp [wsgi_send_response]
  · intro q sk r hr hq
    have hb : wsgi_send_response q sk = wsgi_send_body q sk := by
      simp [wsgi_send_response, hq]
    rw [hb] at hr
    rw [(wsgi_send_body_cases q sk).1 r hr]
    exact hq
  · intro q sk hq
    simp [wsgi_send_response, hq]
  · intro q sk r hq hr hrq
    rcases wsgi_send_response_cases q sk with
      ⟨hs2, _⟩ | ⟨_, e, _, _, hb⟩ | ⟨_, h2, hh2, hret2, hreq2, hb⟩ | ⟨_, h2, _, _, hb⟩
    · rw [hq] at hs2; cases hs2
    · rw [hb] at hr; cases hr
    · rw [hb] at hr
      cases hr
      refine ⟨hh2, hret2, hreq2, ?_⟩
      rcases wsgi_sendheaders_passed q sk r hh2 with ⟨_, hp⟩ | hp
      · exact Or.inl hp
      · exact Or.inr hp
    · rw [hb] at hr
      have := (wsgi_send_body_cases _ _).1 r hr
      rw [this] at hrq
      cases hrq
  · intro q sk r hq hr
    have hb : wsgi_send_response q sk = wsgi_send_body q sk := by
      simp [wsgi_send_response, hq]
    rw [hb] at hr
    exact wsgi_send_body_payload q sk r hr
  · intro q sk r hq hr hrq
    rcases wsgi_send_response_cases q sk with
      ⟨hs2, _⟩ | ⟨_, e, _, _, hb⟩ | ⟨_, h2, _, _, hreq2, hb⟩ | ⟨_, h2, hh2, hret2, hb⟩
    · rw [hq] at hs2; cases hs2
    · rw [hb] at hr; cases hr
    · rw [hb] at hr
      cases hr
      rw [hreq2, hq] at hrq
      cases hrq
    · rw [hb] at hr
      obtain ⟨ws, rest, hpassed, hitems, hblock⟩ := wsgi_send_body_payload _ _ r hr
      rcases wsgi_sendheaders_passed q sk h2 hh2 with ⟨ht, _⟩ | ⟨buf, hbuf⟩
      · rw [hret2] at ht; cases ht
      · refine ⟨h2, buf, ws, rest, hh2, hret2, hbuf, ?_, ?_, hblock⟩
        · rw [hpassed, hbuf]; simp
        · rw [← hitems, payload_items_headers_sent]
  · intro fuel blocked final hrun
    cases fuel with
    | zero => simp [send_until_done] at hrun
    | succ f =>
      obtain ⟨sock1, _, hp1, hfirst⟩ :=
        send_until_done_first f req sock s hs hsent hstatus hheaders hfit hacc
      rw [hfirst] at hrun
      obtain ⟨⟨body, rest, hfp, hfi⟩, hbl⟩ :=
        send_until_done_payload (f + 1) _ sock1 blocked final rfl hrun
      rw [payload_items_headers_sent] at hfi
      refine ⟨⟨body, rest, by rw [hfp, hp1]; simp, hfi⟩, ?_⟩
      intro t ht
      obtain ⟨b, rest2, hbp, hbi⟩ := hbl t ht
      rw [payload_items_headers_sent] at hbi
      exact ⟨b, rest2, by rw [hbp, hp1]; simp, hbi⟩

/-- Claim C14 on the request left by `abc_app` and a fresh connection: the
run of calls ends with the header bytes first and payload after them. -/
theorem wsgi_send_response_headers_before_body_witness :
    (spec_wire_format "200 OK" [("Content-Type", "text/plain", [])]).length ≤ BUFSIZE
    ∧ (∃ sock1 : Socket, sock1.accepts_all
        ∧ sock1.passed
          = [] ++ [spec_wire_format "200 OK" [("Content-Type", "text/plain", [])]]
        ∧ wsgi_send_response abc_request ⟨[], []⟩
          = wsgi_send_body
              { abc_request with
                state := { abc_request.state with REQUEST_RESPONSE_HEADERS_SENT := true } }
              sock1)
    ∧ (∀ (fuel : Nat) (blocked : List Sent) (final : Sent),
        send_until_done fuel abc_request ⟨[], []⟩ = some (blocked, final) →
        (∃ (body : List String) (rest : List (Option PyObj)),
          final.sock.passed
            = [] ++ spec_wire_format "200 OK" [("Content-Type", "text/plain", [])] :: body
          ∧ payload_items abc_request = body.map (fun w => some (PyObj.str w)) ++ rest)
        ∧ ∀ t ∈ blocked, ∃ (b : List String) (rest : List (Option PyObj)),
          t.sock.passed
            = [] ++ spec_wire_format "200 OK" [("Content-Type", "text/plain", [])] :: b
          ∧ payload_items abc_request = b.map (fun w => some (PyObj.str w)) ++ rest) :=
  have h := wsgi_send_response_headers_before_body abc_request ⟨[], []⟩ "200 OK"
    [("Content-Type", "text/plain", [])] rfl rfl rfl (by decide)
    (by intro b hb; cases hb)
  ⟨by decide, h.1, h.2.2.2.2.2.2.2⟩

/-! ## Calls made after the response is done -/

end Bjoern
